import Mathlib

/-!
Verification of the sputnikvm EVM core and runtime layers.

Shallow embedding of `src/core/src/lib.rs`, `src/core/src/eval/mod.rs`,
`src/runtime/src/eval/mod.rs` and `src/runtime/src/eval/system.rs`.
Machine words (`U256`) are modelled as `Nat` kept below `2^256` with explicit
wrap-around where the source wraps; fallible operations return `Except`;
the interpreter loops are fueled (the source loops may diverge).
Modules of the repository that are not present under `src/` (stack, memory,
validity map, opcode catalog, error taxonomy, the per-instruction helper
functions of `core/src/eval/{macros,arithmetic,bitwise,misc}.rs`) are
modelled from the specification, and each such definition is marked
`Modelled from the spec:` in its doc comment.
-/

/-- 2^256, the word modulus. -/
def W : Nat := 2 ^ 256

/-- usize::MAX for the 64-bit targets the source is built for. -/
def USIZE_MAX : Nat := 2 ^ 64 - 1

/-- u64::MAX. -/
def U64_MAX : Nat := 2 ^ 64 - 1

/-- Two's-complement reading of a 256-bit word. -/
def toSigned (a : Nat) : Int :=
  if a < 2 ^ 255 then (a : Int) else (a : Int) - (W : Int)

/-- Encode an integer back into a 256-bit word (two's complement). -/
def fromSigned (i : Int) : Nat := (i % (W : Int)).toNat

/-- Big-endian byte-list to number. -/
def beBytesToNat (bs : List Nat) : Nat := bs.foldl (fun a b => a * 256 + b) 0

/-- Number to 32 big-endian bytes. -/
def natToBeBytes32 (v : Nat) : List Nat :=
  (List.range 32).map (fun i => v / 256 ^ (31 - i) % 256)

/-- H256 -> H160 conversion (`to.into()`): keep the low 20 bytes. -/
def toH160 (h : Nat) : Nat := h % 2 ^ 160

/-- Modelled from the spec: error taxonomy, section 7 (`core/src/error.rs` is
not under `src/`). Success exit reasons. -/
inductive ExitSucceed
  | Stopped
  | Returned
  | Suicided
deriving DecidableEq

/-- Modelled from the spec: error exit reasons, section 7. -/
inductive ExitError
  | StackUnderflow
  | StackOverflow
  | InvalidJump
  | InvalidRange
  | CallTooDeep
  | CreateCollision
  | CreateContractLimit
  | InvalidCode
  | OutOfOffset
  | OutOfGas
  | OutOfFund
  | PCUnderflow
  | DesignatedInvalid
  | Other (msg : String)
deriving DecidableEq

/-- Modelled from the spec: revert exit reasons, section 7. -/
inductive ExitRevert
  | Reverted
deriving DecidableEq

/-- Modelled from the spec: fatal exit reasons, section 7. -/
inductive ExitFatal
  | NotSupported
  | UnhandledInterrupt
  | CallErrorAsFatal (e : ExitError)
  | Other (msg : String)
deriving DecidableEq

/-- Modelled from the spec: the `ExitReason` sum, section 7. -/
inductive ExitReason
  | Succeed (s : ExitSucceed)
  | Error (e : ExitError)
  | Revert (r : ExitRevert)
  | Fatal (f : ExitFatal)
deriving DecidableEq

/-- `Capture`: either terminate or suspend (section 7 / `core/src/error.rs`). -/
inductive Capture (E T : Type)
  | Exit (e : E)
  | Trap (t : T)
deriving DecidableEq

/-- An opcode is a tagged byte (`core/src/opcode.rs` is not under `src/`;
byte values are the Ethereum-standard assignments of spec section 6). -/
structure Opcode where
  byte : Nat
deriving DecidableEq

/-- Per-instruction outcome of the core interpreter
(`Control` in `core/src/eval/mod.rs`). -/
inductive Control
  | Continue (bytes : Nat)
  | Exit (e : ExitReason)
  | Jump (pos : Nat)
  | Trap (op : Opcode)
deriving DecidableEq

/-- Modelled from the spec: the operand stack, section 4.2
(`core/src/stack.rs` is not under `src/`). Top of stack is the list head. -/
structure Stack where
  data : List Nat
  limit : Nat
deriving DecidableEq

/-- Modelled from the spec: `push` fails `StackOverflow` when size equals the
configured limit. -/
def Stack.push (s : Stack) (v : Nat) : Except ExitError Stack :=
  if s.data.length = s.limit then .error .StackOverflow
  else .ok ⟨v :: s.data, s.limit⟩

/-- Modelled from the spec: `pop` fails `StackUnderflow` when empty. -/
def Stack.pop (s : Stack) : Except ExitError (Nat × Stack) :=
  match s.data with
  | [] => .error .StackUnderflow
  | v :: rest => .ok (v, ⟨rest, s.limit⟩)

/-- Modelled from the spec: `peek(n)` fails underflow when `n ≥ size`. -/
def Stack.peek (s : Stack) (n : Nat) : Except ExitError Nat :=
  match s.data.get? n with
  | some v => .ok v
  | none => .error .StackUnderflow

/-- Modelled from the spec: `set(n, w)` fails underflow when `n ≥ size`. -/
def Stack.set (s : Stack) (n : Nat) (v : Nat) : Except ExitError Stack :=
  if n < s.data.length then .ok ⟨s.data.set n v, s.limit⟩
  else .error .StackUnderflow

/-- Modelled from the spec: linear memory, section 4.3
(`core/src/memory.rs` is not under `src/`). `data` is the byte buffer,
`limit` the constructor-supplied bound. -/
structure Memory where
  data : List Nat
  limit : Nat
deriving DecidableEq

/-- Round up to the next multiple of 32. -/
def ceil32 (n : Nat) : Nat := (n + 31) / 32 * 32

/-- Grow the byte buffer to `n` bytes, zero-filled; growth never shrinks. -/
def Memory.grow (m : Memory) (n : Nat) : Memory :=
  if m.data.length < n then ⟨m.data ++ List.replicate (n - m.data.length) 0, m.limit⟩
  else m

/-- Modelled from the spec: `resize_offset(off, len)` — `len == 0` is a no-op;
fail `NotSupported` if the range exceeds `usize::MAX`, `InvalidRange` if it
exceeds the bound; otherwise grow to `ceil32(off + len)` (section 4.3). -/
def Memory.resize_offset (m : Memory) (off len : Nat) : Except ExitReason Memory :=
  if len = 0 then .ok m
  else if off > USIZE_MAX ∨ len > USIZE_MAX ∨ off + len > USIZE_MAX then
    .error (.Fatal .NotSupported)
  else if off + len > m.limit then .error (.Error .InvalidRange)
  else .ok (m.grow (ceil32 (off + len)))

/-- Modelled from the spec: `get(off, len)` returns `len` bytes starting at
`off`, zero-filling any region beyond current length (section 4.3). -/
def Memory.get (m : Memory) (off len : Nat) : List Nat :=
  (List.range len).map (fun i => m.data.getD (off + i) 0)

/-- Write `bytes` into the buffer at `off` (caller has grown the memory;
this still pads with zeros if needed, like the source's `set`). -/
def Memory.setBytes (m : Memory) (off : Nat) (bytes : List Nat) : Memory :=
  ⟨(List.range (max m.data.length (off + bytes.length))).map
    (fun i => if off ≤ i ∧ i < off + bytes.length then bytes.getD (i - off) 0
              else m.data.getD i 0),
   m.limit⟩

/-- Modelled from the spec: `copy_large(dst_off, src_off, len, src)` copies
`len` bytes from `src[src_off..]`, treating out-of-range source bytes as
zero; it grows memory if required, and growth obeys the resize rules
(section 4.3). -/
def Memory.copy_large (m : Memory) (memory_offset data_offset len : Nat)
    (src : List Nat) : Except ExitReason Memory :=
  if len = 0 then .ok m
  else
    match m.resize_offset memory_offset len with
    | .error e => .error e
    | .ok m1 =>
      .ok (m1.setBytes memory_offset
        ((List.range len).map (fun i => src.getD (data_offset + i) 0)))

/-- Modelled from the spec: validity-map construction, section 4.4
(`core/src/valids.rs` is not under `src/`): one left-to-right scan; a
`PUSHk` byte skips its `k` immediate bytes unmarked; a `JUMPDEST` byte
(0x5B) outside immediate windows is marked. Fueled to stay structurally
recursive; `validsOf` supplies enough fuel. -/
def validsAux : Nat → List (Fin 256) → List Bool
  | _, [] => []
  | 0, _ :: _ => []
  | fuel + 1, b :: rest =>
    if 0x60 ≤ b.val ∧ b.val ≤ 0x7F then
      let k := b.val - 0x5F
      (false :: List.replicate (min k rest.length) false) ++ validsAux fuel (rest.drop k)
    else decide (b.val = 0x5B) :: validsAux fuel rest

/-- Modelled from the spec: the validity bitmap for a code blob. -/
def validsOf (code : List (Fin 256)) : List Bool := validsAux code.length code

deriving instance DecidableEq for Except

/-- The core execution state (`Machine` in `core/src/lib.rs`). Code bytes are
`Fin 256` (the source stores `u8`); data/memory bytes are `Nat`. -/
structure Machine where
  data : List Nat
  code : List (Fin 256)
  position : Except ExitReason Nat
  return_range : Nat × Nat
  valids : List Bool
  memory : Memory
  stack : Stack
deriving DecidableEq

/-- `Machine::new` (`core/src/lib.rs`). -/
def Machine.new (code : List (Fin 256)) (data : List Nat)
    (stack_limit memory_limit : Nat) : Machine :=
  { data := data
    code := code
    position := .ok 0
    return_range := (0, 0)
    valids := validsOf code
    memory := ⟨[], memory_limit⟩
    stack := ⟨[], stack_limit⟩ }

/-- `Machine::exit`: latch an exit reason; further steps are refused. -/
def Machine.exit (m : Machine) (reason : ExitReason) : Machine :=
  { m with position := .error reason }

/-- `U256::checked_sub`-style subtraction; `none` models the panic of the
`uint` crate's `Sub` on underflow. -/
def checkedSubU (a b : Nat) : Option Nat :=
  if b ≤ a then some (a - b) else none

/-- `U256::as_usize`; `none` models its panic when the value exceeds
`usize::MAX`. -/
def asUsize (n : Nat) : Option Nat :=
  if n ≤ USIZE_MAX then some n else none

/-- `Machine::return_value` (`core/src/lib.rs` lines 118-142); `none` models
a panic of the underlying `U256` conversions. `Memory.get` is modelled from
the spec. -/
def Machine.return_value (m : Machine) : Option (List Nat) :=
  let start := m.return_range.1
  let stop := m.return_range.2
  if start > USIZE_MAX then do
    let len ← checkedSubU stop start
    let len ← asUsize len
    some (List.replicate len 0)
  else if stop > USIZE_MAX then do
    let ret := m.memory.get start (USIZE_MAX - start)
    let len ← checkedSubU stop start
    let len ← asUsize len
    some (ret ++ List.replicate (len - ret.length) 0)
  else do
    let len ← checkedSubU stop start
    let len ← asUsize len
    some (m.memory.get start len)

/-- Modelled from the spec: `DIV` treats the divisor zero as yielding zero
(section 4.1; `core/src/eval/arithmetic.rs` is not under `src/`). -/
def arithmetic.div (a b : Nat) : Nat := if b = 0 then 0 else a / b

/-- Modelled from the spec: `MOD` with modulus zero yields zero. -/
def arithmetic.rem (a b : Nat) : Nat := if b = 0 then 0 else a % b

/-- Modelled from the spec: `SDIV` interprets operands as two's complement and
truncates toward zero; `SDIV(INT256_MIN, -1) = INT256_MIN` holds because the
exact quotient `2^255` re-encodes to the minimum. -/
def arithmetic.sdiv (a b : Nat) : Nat :=
  if b = 0 then 0 else fromSigned (Int.tdiv (toSigned a) (toSigned b))

/-- Modelled from the spec: `SMOD`, signed remainder (sign of the dividend),
modulus zero yields zero. -/
def arithmetic.srem (a b : Nat) : Nat :=
  if b = 0 then 0 else fromSigned (Int.tmod (toSigned a) (toSigned b))

/-- Modelled from the spec: `EXP` computes `base^exp mod 2^256`. -/
def arithmetic.exp (a b : Nat) : Nat := a ^ b % W

/-- Modelled from the spec: `SIGNEXTEND(b, x)` sign-extends `x` from byte
index `b`, treating `b ≥ 31` as identity. -/
def arithmetic.signextend (b x : Nat) : Nat :=
  if 31 ≤ b then x
  else
    let m := 256 ^ (b + 1)
    let low := x % m
    if x / (2 ^ (8 * b + 7)) % 2 = 1 then low + (W - m) else low

/-- Modelled from the spec: `ADDMOD` in 512 bits then reduce; modulus zero
yields zero (exact on `Nat`). -/
def arithmetic.addmod (a b c : Nat) : Nat := if c = 0 then 0 else (a + b) % c

/-- Modelled from the spec: `MULMOD` in 512 bits then reduce. -/
def arithmetic.mulmod (a b c : Nat) : Nat := if c = 0 then 0 else a * b % c

/-- Modelled from the spec: `SLT` pushes 1 iff signed less-than
(`core/src/eval/bitwise.rs` is not under `src/`). -/
def bitwise.slt (a b : Nat) : Nat := if toSigned a < toSigned b then 1 else 0

/-- Modelled from the spec: `SGT` pushes 1 iff signed greater-than. -/
def bitwise.sgt (a b : Nat) : Nat := if toSigned b < toSigned a then 1 else 0

/-- Modelled from the spec: `ISZERO` pushes 0/1. -/
def bitwise.iszero (a : Nat) : Nat := if a = 0 then 1 else 0

/-- Modelled from the spec: bitwise `NOT` on 256 bits. -/
def bitwise.not (a : Nat) : Nat := W - 1 - a

/-- Modelled from the spec: `BYTE(i, x)` returns byte `i` of `x`
(0 = most significant), zero if `i ≥ 32`. -/
def bitwise.byte (i x : Nat) : Nat :=
  if 32 ≤ i then 0 else x / 256 ^ (31 - i) % 256

/-- Modelled from the spec: `SHL`, shift amount clamped at 256. -/
def bitwise.shl (shift value : Nat) : Nat :=
  if 256 ≤ shift then 0 else value * 2 ^ shift % W

/-- Modelled from the spec: `SHR`, logical right shift. -/
def bitwise.shr (shift value : Nat) : Nat :=
  if 256 ≤ shift then 0 else value / 2 ^ shift

/-- Modelled from the spec: `SAR`, arithmetic (sign-extending) right shift. -/
def bitwise.sar (shift value : Nat) : Nat :=
  if 256 ≤ shift then (if toSigned value < 0 then W - 1 else 0)
  else fromSigned (Int.fdiv (toSigned value) ((2 : Int) ^ shift))

/-- Modelled from the spec: the `op1_u256_fn!` macro of
`core/src/eval/macros.rs` (not under `src/`): pop one operand, push `f op1`
(operands popped top-first, results pushed; section 4.1). -/
def op1_u256_fn (st : Machine) (f : Nat → Nat) : Machine × Control :=
  match st.stack.pop with
  | .error e => (st, .Exit (.Error e))
  | .ok (op1, s1) =>
    match s1.push (f op1) with
    | .error e => ({ st with stack := s1 }, .Exit (.Error e))
    | .ok s2 => ({ st with stack := s2 }, .Continue 1)

/-- Modelled from the spec: the two-operand macros `op2_u256_tuple!`,
`op2_u256!` and `op2_u256_fn!`: pop `op1` then `op2`, push `f op1 op2`. -/
def op2_u256_fn (st : Machine) (f : Nat → Nat → Nat) : Machine × Control :=
  match st.stack.pop with
  | .error e => (st, .Exit (.Error e))
  | .ok (op1, s1) =>
    match s1.pop with
    | .error e => ({ st with stack := s1 }, .Exit (.Error e))
    | .ok (op2, s2) =>
      match s2.push (f op1 op2) with
      | .error e => ({ st with stack := s2 }, .Exit (.Error e))
      | .ok s3 => ({ st with stack := s3 }, .Continue 1)

/-- Modelled from the spec: `op2_u256_bool_ref!`: pop two operands, push 1 if
the comparison holds and 0 otherwise. -/
def op2_u256_bool (st : Machine) (f : Nat → Nat → Bool) : Machine × Control :=
  op2_u256_fn st (fun a b => if f a b then 1 else 0)

/-- Modelled from the spec: `op3_u256_fn!`: pop three operands, push
`f op1 op2 op3`. -/
def op3_u256_fn (st : Machine) (f : Nat → Nat → Nat → Nat) : Machine × Control :=
  match st.stack.pop with
  | .error e => (st, .Exit (.Error e))
  | .ok (op1, s1) =>
    match s1.pop with
    | .error e => ({ st with stack := s1 }, .Exit (.Error e))
    | .ok (op2, s2) =>
      match s2.pop with
      | .error e => ({ st with stack := s2 }, .Exit (.Error e))
      | .ok (op3, s3) =>
        match s3.push (f op1 op2 op3) with
        | .error e => ({ st with stack := s3 }, .Exit (.Error e))
        | .ok s4 => ({ st with stack := s4 }, .Continue 1)

/-- `overflowing_add(..).0`: wrapping 256-bit addition. -/
def overflowing_add (a b : Nat) : Nat := (a + b) % W

/-- `overflowing_mul(..).0`: wrapping 256-bit multiplication. -/
def overflowing_mul (a b : Nat) : Nat := a * b % W

/-- `overflowing_sub(..).0`: wrapping 256-bit subtraction (operands < 2^256). -/
def overflowing_sub (a b : Nat) : Nat := (a + W - b) % W

/-- Modelled from the spec: `POP` discards the top of stack
(`core/src/eval/misc.rs` is not under `src/`; section 4.1). -/
def misc.pop (st : Machine) : Machine × Control :=
  match st.stack.pop with
  | .error e => (st, .Exit (.Error e))
  | .ok (_, s1) => ({ st with stack := s1 }, .Continue 1)

/-- Modelled from the spec: `PC` pushes the current program counter. -/
def misc.pc (st : Machine) (position : Nat) : Machine × Control :=
  match st.stack.push position with
  | .error e => (st, .Exit (.Error e))
  | .ok s1 => ({ st with stack := s1 }, .Continue 1)

/-- Modelled from the spec: `MSIZE` pushes the current word-aligned memory
length. -/
def misc.msize (st : Machine) : Machine × Control :=
  match st.stack.push st.memory.data.length with
  | .error e => (st, .Exit (.Error e))
  | .ok s1 => ({ st with stack := s1 }, .Continue 1)

/-- Modelled from the spec: `PUSHk` reads `k` immediate bytes big-endian,
zero-extended if the code is shorter, and advances PC by `1 + k`. -/
def misc.push (st : Machine) (n : Nat) (position : Nat) : Machine × Control :=
  let val := beBytesToNat
    ((List.range n).map (fun i => ((st.code.get? (position + 1 + i)).map Fin.val).getD 0))
  match st.stack.push val with
  | .error e => (st, .Exit (.Error e))
  | .ok s1 => ({ st with stack := s1 }, .Continue (1 + n))

/-- Modelled from the spec: `CODESIZE` pushes `len(code)`. -/
def misc.codesize (st : Machine) : Machine × Control :=
  match st.stack.push st.code.length with
  | .error e => (st, .Exit (.Error e))
  | .ok s1 => ({ st with stack := s1 }, .Continue 1)

/-- Modelled from the spec: `CALLDATASIZE` pushes `len(data)`. -/
def misc.calldatasize (st : Machine) : Machine × Control :=
  match st.stack.push st.data.length with
  | .error e => (st, .Exit (.Error e))
  | .ok s1 => ({ st with stack := s1 }, .Continue 1)

/-- Modelled from the spec: `CALLDATALOAD(off)` reads a 32-byte word from the
call data, zero-padded past the end. -/
def misc.calldataload (st : Machine) : Machine × Control :=
  match st.stack.pop with
  | .error e => (st, .Exit (.Error e))
  | .ok (index, s1) =>
    let val := beBytesToNat ((List.range 32).map (fun i => st.data.getD (index + i) 0))
    match s1.push val with
    | .error e => ({ st with stack := s1 }, .Exit (.Error e))
    | .ok s2 => ({ st with stack := s2 }, .Continue 1)

/-- Modelled from the spec: `MLOAD` pops an offset, grows memory to cover 32
bytes there, and pushes the word read big-endian. -/
def misc.mload (st : Machine) : Machine × Control :=
  match st.stack.pop with
  | .error e => (st, .Exit (.Error e))
  | .ok (index, s1) =>
    match st.memory.resize_offset index 32 with
    | .error e => ({ st with stack := s1 }, .Exit e)
    | .ok m1 =>
      let val := beBytesToNat (m1.get index 32)
      match s1.push val with
      | .error e => ({ st with stack := s1, memory := m1 }, .Exit (.Error e))
      | .ok s2 => ({ st with stack := s2, memory := m1 }, .Continue 1)

/-- Modelled from the spec: `MSTORE` pops offset and value and writes 32 bytes
big-endian after growing memory. -/
def misc.mstore (st : Machine) : Machine × Control :=
  match st.stack.pop with
  | .error e => (st, .Exit (.Error e))
  | .ok (index, s1) =>
    match s1.pop with
    | .error e => ({ st with stack := s1 }, .Exit (.Error e))
    | .ok (value, s2) =>
      match st.memory.resize_offset index 32 with
      | .error e => ({ st with stack := s2 }, .Exit e)
      | .ok m1 =>
        ({ st with stack := s2, memory := m1.setBytes index (natToBeBytes32 value) },
         .Continue 1)

/-- Modelled from the spec: `MSTORE8` writes one byte (`value mod 256`). -/
def misc.mstore8 (st : Machine) : Machine × Control :=
  match st.stack.pop with
  | .error e => (st, .Exit (.Error e))
  | .ok (index, s1) =>
    match s1.pop with
    | .error e => ({ st with stack := s1 }, .Exit (.Error e))
    | .ok (value, s2) =>
      match st.memory.resize_offset index 1 with
      | .error e => ({ st with stack := s2 }, .Exit e)
      | .ok m1 =>
        ({ st with stack := s2, memory := m1.setBytes index [value % 256] }, .Continue 1)

/-- Modelled from the spec: `CODECOPY(dst, src, len)` copies from the code,
reading zero past its end. -/
def misc.codecopy (st : Machine) : Machine × Control :=
  match st.stack.pop with
  | .error e => (st, .Exit (.Error e))
  | .ok (memory_offset, s1) =>
    match s1.pop with
    | .error e => ({ st with stack := s1 }, .Exit (.Error e))
    | .ok (code_offset, s2) =>
      match s2.pop with
      | .error e => ({ st with stack := s2 }, .Exit (.Error e))
      | .ok (len, s3) =>
        match st.memory.resize_offset memory_offset len with
        | .error e => ({ st with stack := s3 }, .Exit e)
        | .ok m1 =>
          match m1.copy_large memory_offset code_offset len (st.code.map Fin.val) with
          | .error e => ({ st with stack := s3, memory := m1 }, .Exit e)
          | .ok m2 => ({ st with stack := s3, memory := m2 }, .Continue 1)

/-- Modelled from the spec: `CALLDATACOPY`, zero-padded past the data end. -/
def misc.calldatacopy (st : Machine) : Machine × Control :=
  match st.stack.pop with
  | .error e => (st, .Exit (.Error e))
  | .ok (memory_offset, s1) =>
    match s1.pop with
    | .error e => ({ st with stack := s1 }, .Exit (.Error e))
    | .ok (data_offset, s2) =>
      match s2.pop with
      | .error e => ({ st with stack := s2 }, .Exit (.Error e))
      | .ok (len, s3) =>
        match st.memory.resize_offset memory_offset len with
        | .error e => ({ st with stack := s3 }, .Exit e)
        | .ok m1 =>
          match m1.copy_large memory_offset data_offset len st.data with
          | .error e => ({ st with stack := s3, memory := m1 }, .Exit e)
          | .ok m2 => ({ st with stack := s3, memory := m2 }, .Continue 1)

/-- Modelled from the spec: `DUPn` duplicates the n-th stack item
(1-indexed from the top). -/
def misc.dup (st : Machine) (n : Nat) : Machine × Control :=
  match st.stack.peek (n - 1) with
  | .error e => (st, .Exit (.Error e))
  | .ok value =>
    match st.stack.push value with
    | .error e => (st, .Exit (.Error e))
    | .ok s1 => ({ st with stack := s1 }, .Continue 1)

/-- Modelled from the spec: `SWAPn` swaps the top with the (n+1)-th item. -/
def misc.swap (st : Machine) (n : Nat) : Machine × Control :=
  match st.stack.peek 0 with
  | .error e => (st, .Exit (.Error e))
  | .ok val1 =>
    match st.stack.peek n with
    | .error e => (st, .Exit (.Error e))
    | .ok val2 =>
      match st.stack.set 0 val2 with
      | .error e => (st, .Exit (.Error e))
      | .ok s1 =>
        match s1.set n val1 with
        | .error e => ({ st with stack := s1 }, .Exit (.Error e))
        | .ok s2 => ({ st with stack := s2 }, .Continue 1)

/-- Modelled from the spec: `RETURN(off, len)` sets
`return_range = off..off+len` and exits success "returned". -/
def misc.ret (st : Machine) : Machine × Control :=
  match st.stack.pop with
  | .error e => (st, .Exit (.Error e))
  | .ok (start, s1) =>
    match s1.pop with
    | .error e => ({ st with stack := s1 }, .Exit (.Error e))
    | .ok (len, s2) =>
      match st.memory.resize_offset start len with
      | .error e => ({ st with stack := s2 }, .Exit e)
      | .ok m1 =>
        ({ st with stack := s2, memory := m1, return_range := (start, start + len) },
         .Exit (.Succeed .Returned))

/-- Modelled from the spec: `REVERT(off, len)`, same as `RETURN` but exits
with the revert reason. -/
def misc.revert (st : Machine) : Machine × Control :=
  match st.stack.pop with
  | .error e => (st, .Exit (.Error e))
  | .ok (start, s1) =>
    match s1.pop with
    | .error e => ({ st with stack := s1 }, .Exit (.Error e))
    | .ok (len, s2) =>
      match st.memory.resize_offset start len with
      | .error e => ({ st with stack := s2 }, .Exit e)
      | .ok m1 =>
        ({ st with stack := s2, memory := m1, return_range := (start, start + len) },
         .Exit (.Revert .Reverted))

/-- Modelled from the spec: `JUMP(dest)` uses the validity map; invalid or
oversized targets fail with `InvalidJump`. -/
def misc.jump (st : Machine) : Machine × Control :=
  match st.stack.pop with
  | .error e => (st, .Exit (.Error e))
  | .ok (dest, s1) =>
    if dest > USIZE_MAX then ({ st with stack := s1 }, .Exit (.Error .InvalidJump))
    else if st.valids.getD dest false then ({ st with stack := s1 }, .Jump dest)
    else ({ st with stack := s1 }, .Exit (.Error .InvalidJump))

/-- Modelled from the spec: `JUMPI(dest, cond)` jumps iff `cond ≠ 0`, else
falls through. -/
def misc.jumpi (st : Machine) : Machine × Control :=
  match st.stack.pop with
  | .error e => (st, .Exit (.Error e))
  | .ok (dest, s1) =>
    match s1.pop with
    | .error e => ({ st with stack := s1 }, .Exit (.Error e))
    | .ok (value, s2) =>
      if value ≠ 0 then
        if dest > USIZE_MAX then ({ st with stack := s2 }, .Exit (.Error .InvalidJump))
        else if st.valids.getD dest false then ({ st with stack := s2 }, .Jump dest)
        else ({ st with stack := s2 }, .Exit (.Error .InvalidJump))
      else ({ st with stack := s2 }, .Continue 1)

/-- Signature of the entries of the dispatch table in `eval_table`
(`core/src/eval/mod.rs` line 207). -/
abbrev OpFn := Machine -> Opcode -> Nat -> Machine × Control

/-- The default table entry `eval_external` (`core/src/eval/mod.rs` lines
208-211): skip the external instruction and trap on it. -/
def eval_external : OpFn := fun st op position =>
  ({ st with position := .ok (position + 1) }, .Trap op)

/-- Table entry for `ADD` (0x01), `table_elem!` in `eval_table`. -/
def t_ADD : OpFn := fun st _ _ => op2_u256_fn st overflowing_add

/-- Table entry for `MUL` (0x02), `table_elem!` in `eval_table`. -/
def t_MUL : OpFn := fun st _ _ => op2_u256_fn st overflowing_mul

/-- Table entry for `SUB` (0x03), `table_elem!` in `eval_table`. -/
def t_SUB : OpFn := fun st _ _ => op2_u256_fn st overflowing_sub

/-- Table entry for `DIV` (0x04), `table_elem!` in `eval_table`. -/
def t_DIV : OpFn := fun st _ _ => op2_u256_fn st arithmetic.div

/-- Table entry for `SDIV` (0x05), `table_elem!` in `eval_table`. -/
def t_SDIV : OpFn := fun st _ _ => op2_u256_fn st arithmetic.sdiv

/-- Table entry for `EXP` (0x0A), `table_elem!` in `eval_table`. -/
def t_EXP : OpFn := fun st _ _ => op2_u256_fn st arithmetic.exp

/-- Table entry for `SIGNEXTEND` (0x0B), `table_elem!` in `eval_table`. -/
def t_SIGNEXTEND : OpFn := fun st _ _ => op2_u256_fn st arithmetic.signextend

/-- Table entry for `LT` (0x10), `table_elem!` in `eval_table`. -/
def t_LT : OpFn := fun st _ _ => op2_u256_bool st (fun a b => decide (a < b))

/-- Table entry for `GT` (0x11), `table_elem!` in `eval_table`. -/
def t_GT : OpFn := fun st _ _ => op2_u256_bool st (fun a b => decide (b < a))

/-- Table entry for `SLT` (0x12), `table_elem!` in `eval_table`. -/
def t_SLT : OpFn := fun st _ _ => op2_u256_fn st bitwise.slt

/-- Table entry for `SGT` (0x13), `table_elem!` in `eval_table`. -/
def t_SGT : OpFn := fun st _ _ => op2_u256_fn st bitwise.sgt

/-- Table entry for `EQ` (0x14), `table_elem!` in `eval_table`. -/
def t_EQ : OpFn := fun st _ _ => op2_u256_bool st (fun a b => decide (a = b))

/-- Table entry for `ISZERO` (0x15), `table_elem!` in `eval_table`. -/
def t_ISZERO : OpFn := fun st _ _ => op1_u256_fn st bitwise.iszero

/-- Table entry for `AND` (0x16), `table_elem!` in `eval_table`. -/
def t_AND : OpFn := fun st _ _ => op2_u256_fn st Nat.land

/-- Table entry for `OR` (0x17), `table_elem!` in `eval_table`. -/
def t_OR : OpFn := fun st _ _ => op2_u256_fn st Nat.lor

/-- Table entry for `XOR` (0x18), `table_elem!` in `eval_table`. -/
def t_XOR : OpFn := fun st _ _ => op2_u256_fn st Nat.xor

/-- Table entry for `NOT` (0x19), `table_elem!` in `eval_table`. -/
def t_NOT : OpFn := fun st _ _ => op1_u256_fn st bitwise.not

/-- Table entry for `BYTE` (0x1A), `table_elem!` in `eval_table`. -/
def t_BYTE : OpFn := fun st _ _ => op2_u256_fn st bitwise.byte

/-- Table entry for `SHL` (0x1B), `table_elem!` in `eval_table`. -/
def t_SHL : OpFn := fun st _ _ => op2_u256_fn st bitwise.shl

/-- Table entry for `SHR` (0x1C), `table_elem!` in `eval_table`. -/
def t_SHR : OpFn := fun st _ _ => op2_u256_fn st bitwise.shr

/-- Table entry for `SAR` (0x1D), `table_elem!` in `eval_table`. -/
def t_SAR : OpFn := fun st _ _ => op2_u256_fn st bitwise.sar

/-- Table entry for `POP` (0x50), `table_elem!` in `eval_table`. -/
def t_POP : OpFn := fun st _ _ => misc.pop st

/-- Table entry for `PC` (0x58), `table_elem!` in `eval_table`. -/
def t_PC : OpFn := fun st _ position => misc.pc st position

/-- Table entry for `MSIZE` (0x59), `table_elem!` in `eval_table`. -/
def t_MSIZE : OpFn := fun st _ _ => misc.msize st

/-- Table entry for `PUSH1` (0x60), `table_elem!` in `eval_table`. -/
def t_PUSH1 : OpFn := fun st _ position => misc.push st 1 position

/-- Table entry for `PUSH2` (0x61), `table_elem!` in `eval_table`. -/
def t_PUSH2 : OpFn := fun st _ position => misc.push st 2 position

/-- Table entry for `PUSH3` (0x62), `table_elem!` in `eval_table`. -/
def t_PUSH3 : OpFn := fun st _ position => misc.push st 3 position

/-- Table entry for `PUSH4` (0x63), `table_elem!` in `eval_table`. -/
def t_PUSH4 : OpFn := fun st _ position => misc.push st 4 position

/-- Table entry for `PUSH5` (0x64), `table_elem!` in `eval_table`. -/
def t_PUSH5 : OpFn := fun st _ position => misc.push st 5 position

/-- Table entry for `PUSH6` (0x65), `table_elem!` in `eval_table`. -/
def t_PUSH6 : OpFn := fun st _ position => misc.push st 6 position

/-- Table entry for `PUSH7` (0x66), `table_elem!` in `eval_table`. -/
def t_PUSH7 : OpFn := fun st _ position => misc.push st 7 position

/-- Table entry for `PUSH8` (0x67), `table_elem!` in `eval_table`. -/
def t_PUSH8 : OpFn := fun st _ position => misc.push st 8 position

/-- Table entry for `PUSH9` (0x68), `table_elem!` in `eval_table`. -/
def t_PUSH9 : OpFn := fun st _ position => misc.push st 9 position

/-- Table entry for `PUSH10` (0x69), `table_elem!` in `eval_table`. -/
def t_PUSH10 : OpFn := fun st _ position => misc.push st 10 position

/-- Table entry for `PUSH11` (0x6A), `table_elem!` in `eval_table`. -/
def t_PUSH11 : OpFn := fun st _ position => misc.push st 11 position

/-- Table entry for `PUSH12` (0x6B), `table_elem!` in `eval_table`. -/
def t_PUSH12 : OpFn := fun st _ position => misc.push st 12 position

/-- Table entry for `PUSH13` (0x6C), `table_elem!` in `eval_table`. -/
def t_PUSH13 : OpFn := fun st _ position => misc.push st 13 position

/-- Table entry for `PUSH14` (0x6D), `table_elem!` in `eval_table`. -/
def t_PUSH14 : OpFn := fun st _ position => misc.push st 14 position

/-- Table entry for `PUSH15` (0x6E), `table_elem!` in `eval_table`. -/
def t_PUSH15 : OpFn := fun st _ position => misc.push st 15 position

/-- Table entry for `PUSH16` (0x6F), `table_elem!` in `eval_table`. -/
def t_PUSH16 : OpFn := fun st _ position => misc.push st 16 position

/-- Table entry for `PUSH17` (0x70), `table_elem!` in `eval_table`. -/
def t_PUSH17 : OpFn := fun st _ position => misc.push st 17 position

/-- Table entry for `PUSH18` (0x71), `table_elem!` in `eval_table`. -/
def t_PUSH18 : OpFn := fun st _ position => misc.push st 18 position

/-- Table entry for `PUSH19` (0x72), `table_elem!` in `eval_table`. -/
def t_PUSH19 : OpFn := fun st _ position => misc.push st 19 position

/-- Table entry for `PUSH20` (0x73), `table_elem!` in `eval_table`. -/
def t_PUSH20 : OpFn := fun st _ position => misc.push st 20 position

/-- Table entry for `PUSH21` (0x74), `table_elem!` in `eval_table`. -/
def t_PUSH21 : OpFn := fun st _ position => misc.push st 21 position

/-- Table entry for `PUSH22` (0x75), `table_elem!` in `eval_table`. -/
def t_PUSH22 : OpFn := fun st _ position => misc.push st 22 position

/-- Table entry for `PUSH23` (0x76), `table_elem!` in `eval_table`. -/
def t_PUSH23 : OpFn := fun st _ position => misc.push st 23 position

/-- Table entry for `PUSH24` (0x77), `table_elem!` in `eval_table`. -/
def t_PUSH24 : OpFn := fun st _ position => misc.push st 24 position

/-- Table entry for `PUSH25` (0x78), `table_elem!` in `eval_table`. -/
def t_PUSH25 : OpFn := fun st _ position => misc.push st 25 position

/-- Table entry for `PUSH26` (0x79), `table_elem!` in `eval_table`. -/
def t_PUSH26 : OpFn := fun st _ position => misc.push st 26 position

/-- Table entry for `PUSH27` (0x7A), `table_elem!` in `eval_table`. -/
def t_PUSH27 : OpFn := fun st _ position => misc.push st 27 position

/-- Table entry for `PUSH28` (0x7B), `table_elem!` in `eval_table`. -/
def t_PUSH28 : OpFn := fun st _ position => misc.push st 28 position

/-- Table entry for `PUSH29` (0x7C), `table_elem!` in `eval_table`. -/
def t_PUSH29 : OpFn := fun st _ position => misc.push st 29 position

/-- Table entry for `PUSH30` (0x7D), `table_elem!` in `eval_table`. -/
def t_PUSH30 : OpFn := fun st _ position => misc.push st 30 position

/-- Table entry for `PUSH31` (0x7E), `table_elem!` in `eval_table`. -/
def t_PUSH31 : OpFn := fun st _ position => misc.push st 31 position

/-- Table entry for `PUSH32` (0x7F), `table_elem!` in `eval_table`. -/
def t_PUSH32 : OpFn := fun st _ position => misc.push st 32 position

/-- Table entry for `MOD` (0x06), `table_elem!` in `eval_table`. -/
def t_MOD : OpFn := fun st _ _ => op2_u256_fn st arithmetic.rem

/-- Table entry for `SMOD` (0x07), `table_elem!` in `eval_table`. -/
def t_SMOD : OpFn := fun st _ _ => op2_u256_fn st arithmetic.srem

/-- Table entry for `CODESIZE` (0x38), `table_elem!` in `eval_table`. -/
def t_CODESIZE : OpFn := fun st _ _ => misc.codesize st

/-- Table entry for `CALLDATALOAD` (0x35), `table_elem!` in `eval_table`. -/
def t_CALLDATALOAD : OpFn := fun st _ _ => misc.calldataload st

/-- Table entry for `CALLDATASIZE` (0x36), `table_elem!` in `eval_table`. -/
def t_CALLDATASIZE : OpFn := fun st _ _ => misc.calldatasize st

/-- Table entry for `ADDMOD` (0x08), `table_elem!` in `eval_table`. -/
def t_ADDMOD : OpFn := fun st _ _ => op3_u256_fn st arithmetic.addmod

/-- Table entry for `MULMOD` (0x09), `table_elem!` in `eval_table`. -/
def t_MULMOD : OpFn := fun st _ _ => op3_u256_fn st arithmetic.mulmod

/-- Table entry for `MLOAD` (0x51), `table_elem!` in `eval_table`. -/
def t_MLOAD : OpFn := fun st _ _ => misc.mload st

/-- Table entry for `MSTORE` (0x52), `table_elem!` in `eval_table`. -/
def t_MSTORE : OpFn := fun st _ _ => misc.mstore st

/-- Table entry for `MSTORE8` (0x53), `table_elem!` in `eval_table`. -/
def t_MSTORE8 : OpFn := fun st _ _ => misc.mstore8 st

/-- Table entry for `CODECOPY` (0x39), `table_elem!` in `eval_table`. -/
def t_CODECOPY : OpFn := fun st _ _ => misc.codecopy st

/-- Table entry for `CALLDATACOPY` (0x37), `table_elem!` in `eval_table`. -/
def t_CALLDATACOPY : OpFn := fun st _ _ => misc.calldatacopy st

/-- Table entry for `DUP1` (0x80), `table_elem!` in `eval_table`. -/
def t_DUP1 : OpFn := fun st _ _ => misc.dup st 1

/-- Table entry for `DUP2` (0x81), `table_elem!` in `eval_table`. -/
def t_DUP2 : OpFn := fun st _ _ => misc.dup st 2

/-- Table entry for `DUP3` (0x82), `table_elem!` in `eval_table`. -/
def t_DUP3 : OpFn := fun st _ _ => misc.dup st 3

/-- Table entry for `DUP4` (0x83), `table_elem!` in `eval_table`. -/
def t_DUP4 : OpFn := fun st _ _ => misc.dup st 4

/-- Table entry for `DUP5` (0x84), `table_elem!` in `eval_table`. -/
def t_DUP5 : OpFn := fun st _ _ => misc.dup st 5

/-- Table entry for `DUP6` (0x85), `table_elem!` in `eval_table`. -/
def t_DUP6 : OpFn := fun st _ _ => misc.dup st 6

/-- Table entry for `DUP7` (0x86), `table_elem!` in `eval_table`. -/
def t_DUP7 : OpFn := fun st _ _ => misc.dup st 7

/-- Table entry for `DUP8` (0x87), `table_elem!` in `eval_table`. -/
def t_DUP8 : OpFn := fun st _ _ => misc.dup st 8

/-- Table entry for `DUP9` (0x88), `table_elem!` in `eval_table`. -/
def t_DUP9 : OpFn := fun st _ _ => misc.dup st 9

/-- Table entry for `DUP10` (0x89), `table_elem!` in `eval_table`. -/
def t_DUP10 : OpFn := fun st _ _ => misc.dup st 10

/-- Table entry for `DUP11` (0x8A), `table_elem!` in `eval_table`. -/
def t_DUP11 : OpFn := fun st _ _ => misc.dup st 11

/-- Table entry for `DUP12` (0x8B), `table_elem!` in `eval_table`. -/
def t_DUP12 : OpFn := fun st _ _ => misc.dup st 12

/-- Table entry for `DUP13` (0x8C), `table_elem!` in `eval_table`. -/
def t_DUP13 : OpFn := fun st _ _ => misc.dup st 13

/-- Table entry for `DUP14` (0x8D), `table_elem!` in `eval_table`. -/
def t_DUP14 : OpFn := fun st _ _ => misc.dup st 14

/-- Table entry for `DUP15` (0x8E), `table_elem!` in `eval_table`. -/
def t_DUP15 : OpFn := fun st _ _ => misc.dup st 15

/-- Table entry for `DUP16` (0x8F), `table_elem!` in `eval_table`. -/
def t_DUP16 : OpFn := fun st _ _ => misc.dup st 16

/-- Table entry for `SWAP1` (0x90), `table_elem!` in `eval_table`. -/
def t_SWAP1 : OpFn := fun st _ _ => misc.swap st 1

/-- Table entry for `SWAP2` (0x91), `table_elem!` in `eval_table`. -/
def t_SWAP2 : OpFn := fun st _ _ => misc.swap st 2

/-- Table entry for `SWAP3` (0x92), `table_elem!` in `eval_table`. -/
def t_SWAP3 : OpFn := fun st _ _ => misc.swap st 3

/-- Table entry for `SWAP4` (0x93), `table_elem!` in `eval_table`. -/
def t_SWAP4 : OpFn := fun st _ _ => misc.swap st 4

/-- Table entry for `SWAP5` (0x94), `table_elem!` in `eval_table`. -/
def t_SWAP5 : OpFn := fun st _ _ => misc.swap st 5

/-- Table entry for `SWAP6` (0x95), `table_elem!` in `eval_table`. -/
def t_SWAP6 : OpFn := fun st _ _ => misc.swap st 6

/-- Table entry for `SWAP7` (0x96), `table_elem!` in `eval_table`. -/
def t_SWAP7 : OpFn := fun st _ _ => misc.swap st 7

/-- Table entry for `SWAP8` (0x97), `table_elem!` in `eval_table`. -/
def t_SWAP8 : OpFn := fun st _ _ => misc.swap st 8

/-- Table entry for `SWAP9` (0x98), `table_elem!` in `eval_table`. -/
def t_SWAP9 : OpFn := fun st _ _ => misc.swap st 9

/-- Table entry for `SWAP10` (0x99), `table_elem!` in `eval_table`. -/
def t_SWAP10 : OpFn := fun st _ _ => misc.swap st 10

/-- Table entry for `SWAP11` (0x9A), `table_elem!` in `eval_table`. -/
def t_SWAP11 : OpFn := fun st _ _ => misc.swap st 11

/-- Table entry for `SWAP12` (0x9B), `table_elem!` in `eval_table`. -/
def t_SWAP12 : OpFn := fun st _ _ => misc.swap st 12

/-- Table entry for `SWAP13` (0x9C), `table_elem!` in `eval_table`. -/
def t_SWAP13 : OpFn := fun st _ _ => misc.swap st 13

/-- Table entry for `SWAP14` (0x9D), `table_elem!` in `eval_table`. -/
def t_SWAP14 : OpFn := fun st _ _ => misc.swap st 14

/-- Table entry for `SWAP15` (0x9E), `table_elem!` in `eval_table`. -/
def t_SWAP15 : OpFn := fun st _ _ => misc.swap st 15

/-- Table entry for `SWAP16` (0x9F), `table_elem!` in `eval_table`. -/
def t_SWAP16 : OpFn := fun st _ _ => misc.swap st 16

/-- Table entry for `RETURN` (0xF3), `table_elem!` in `eval_table`. -/
def t_RETURN : OpFn := fun st _ _ => misc.ret st

/-- Table entry for `REVERT` (0xFD), `table_elem!` in `eval_table`. -/
def t_REVERT : OpFn := fun st _ _ => misc.revert st

/-- Table entry for `INVALID` (0xFE), `table_elem!` in `eval_table`. -/
def t_INVALID : OpFn := fun st _ _ => (st, .Exit (.Error .DesignatedInvalid))

/-- Table entry for `STOP` (0x00), `table_elem!` in `eval_table`. -/
def t_STOP : OpFn := fun st _ _ => (st, .Exit (.Succeed .Stopped))

/-- Table entry for `JUMPDEST` (0x5B), `table_elem!` in `eval_table`. -/
def t_JUMPDEST : OpFn := fun st _ _ => (st, .Continue 1)

/-- Table entry for `JUMP` (0x56), `table_elem!` in `eval_table`. -/
def t_JUMP : OpFn := fun st _ _ => misc.jump st

/-- Table entry for `JUMPI` (0x57), `table_elem!` in `eval_table`. -/
def t_JUMPI : OpFn := fun st _ _ => misc.jumpi st

/-- The 256-entry dispatch table of `eval_table` (`core/src/eval/mod.rs`
lines 207-465): every slot starts as `eval_external` and the `table_elem!`
assignments overwrite the implemented opcodes, in source order. -/
def TABLE : List OpFn :=
  (List.replicate 256 eval_external)
  |>.set 0x01 t_ADD
  |>.set 0x02 t_MUL
  |>.set 0x03 t_SUB
  |>.set 0x04 t_DIV
  |>.set 0x05 t_SDIV
  |>.set 0x0A t_EXP
  |>.set 0x0B t_SIGNEXTEND
  |>.set 0x10 t_LT
  |>.set 0x11 t_GT
  |>.set 0x12 t_SLT
  |>.set 0x13 t_SGT
  |>.set 0x14 t_EQ
  |>.set 0x15 t_ISZERO
  |>.set 0x16 t_AND
  |>.set 0x17 t_OR
  |>.set 0x18 t_XOR
  |>.set 0x19 t_NOT
  |>.set 0x1A t_BYTE
  |>.set 0x1B t_SHL
  |>.set 0x1C t_SHR
  |>.set 0x1D t_SAR
  |>.set 0x50 t_POP
  |>.set 0x58 t_PC
  |>.set 0x59 t_MSIZE
  |>.set 0x60 t_PUSH1
  |>.set 0x61 t_PUSH2
  |>.set 0x62 t_PUSH3
  |>.set 0x63 t_PUSH4
  |>.set 0x64 t_PUSH5
  |>.set 0x65 t_PUSH6
  |>.set 0x66 t_PUSH7
  |>.set 0x67 t_PUSH8
  |>.set 0x68 t_PUSH9
  |>.set 0x69 t_PUSH10
  |>.set 0x6A t_PUSH11
  |>.set 0x6B t_PUSH12
  |>.set 0x6C t_PUSH13
  |>.set 0x6D t_PUSH14
  |>.set 0x6E t_PUSH15
  |>.set 0x6F t_PUSH16
  |>.set 0x70 t_PUSH17
  |>.set 0x71 t_PUSH18
  |>.set 0x72 t_PUSH19
  |>.set 0x73 t_PUSH20
  |>.set 0x74 t_PUSH21
  |>.set 0x75 t_PUSH22
  |>.set 0x76 t_PUSH23
  |>.set 0x77 t_PUSH24
  |>.set 0x78 t_PUSH25
  |>.set 0x79 t_PUSH26
  |>.set 0x7A t_PUSH27
  |>.set 0x7B t_PUSH28
  |>.set 0x7C t_PUSH29
  |>.set 0x7D t_PUSH30
  |>.set 0x7E t_PUSH31
  |>.set 0x7F t_PUSH32
  |>.set 0x06 t_MOD
  |>.set 0x07 t_SMOD
  |>.set 0x38 t_CODESIZE
  |>.set 0x35 t_CALLDATALOAD
  |>.set 0x36 t_CALLDATASIZE
  |>.set 0x08 t_ADDMOD
  |>.set 0x09 t_MULMOD
  |>.set 0x51 t_MLOAD
  |>.set 0x52 t_MSTORE
  |>.set 0x53 t_MSTORE8
  |>.set 0x39 t_CODECOPY
  |>.set 0x37 t_CALLDATACOPY
  |>.set 0x80 t_DUP1
  |>.set 0x81 t_DUP2
  |>.set 0x82 t_DUP3
  |>.set 0x83 t_DUP4
  |>.set 0x84 t_DUP5
  |>.set 0x85 t_DUP6
  |>.set 0x86 t_DUP7
  |>.set 0x87 t_DUP8
  |>.set 0x88 t_DUP9
  |>.set 0x89 t_DUP10
  |>.set 0x8A t_DUP11
  |>.set 0x8B t_DUP12
  |>.set 0x8C t_DUP13
  |>.set 0x8D t_DUP14
  |>.set 0x8E t_DUP15
  |>.set 0x8F t_DUP16
  |>.set 0x90 t_SWAP1
  |>.set 0x91 t_SWAP2
  |>.set 0x92 t_SWAP3
  |>.set 0x93 t_SWAP4
  |>.set 0x94 t_SWAP5
  |>.set 0x95 t_SWAP6
  |>.set 0x96 t_SWAP7
  |>.set 0x97 t_SWAP8
  |>.set 0x98 t_SWAP9
  |>.set 0x99 t_SWAP10
  |>.set 0x9A t_SWAP11
  |>.set 0x9B t_SWAP12
  |>.set 0x9C t_SWAP13
  |>.set 0x9D t_SWAP14
  |>.set 0x9E t_SWAP15
  |>.set 0x9F t_SWAP16
  |>.set 0xF3 t_RETURN
  |>.set 0xFD t_REVERT
  |>.set 0xFE t_INVALID
  |>.set 0x00 t_STOP
  |>.set 0x5B t_JUMPDEST
  |>.set 0x56 t_JUMP
  |>.set 0x57 t_JUMPI

/-- The dispatch table as a function of the byte, entry by entry; the
equation `TABLE_eq` below checks that the assignment chain of `TABLE`
produced exactly these entries. -/
def tableOf : Nat -> OpFn
  | 0x01 => t_ADD
  | 0x02 => t_MUL
  | 0x03 => t_SUB
  | 0x04 => t_DIV
  | 0x05 => t_SDIV
  | 0x0A => t_EXP
  | 0x0B => t_SIGNEXTEND
  | 0x10 => t_LT
  | 0x11 => t_GT
  | 0x12 => t_SLT
  | 0x13 => t_SGT
  | 0x14 => t_EQ
  | 0x15 => t_ISZERO
  | 0x16 => t_AND
  | 0x17 => t_OR
  | 0x18 => t_XOR
  | 0x19 => t_NOT
  | 0x1A => t_BYTE
  | 0x1B => t_SHL
  | 0x1C => t_SHR
  | 0x1D => t_SAR
  | 0x50 => t_POP
  | 0x58 => t_PC
  | 0x59 => t_MSIZE
  | 0x60 => t_PUSH1
  | 0x61 => t_PUSH2
  | 0x62 => t_PUSH3
  | 0x63 => t_PUSH4
  | 0x64 => t_PUSH5
  | 0x65 => t_PUSH6
  | 0x66 => t_PUSH7
  | 0x67 => t_PUSH8
  | 0x68 => t_PUSH9
  | 0x69 => t_PUSH10
  | 0x6A => t_PUSH11
  | 0x6B => t_PUSH12
  | 0x6C => t_PUSH13
  | 0x6D => t_PUSH14
  | 0x6E => t_PUSH15
  | 0x6F => t_PUSH16
  | 0x70 => t_PUSH17
  | 0x71 => t_PUSH18
  | 0x72 => t_PUSH19
  | 0x73 => t_PUSH20
  | 0x74 => t_PUSH21
  | 0x75 => t_PUSH22
  | 0x76 => t_PUSH23
  | 0x77 => t_PUSH24
  | 0x78 => t_PUSH25
  | 0x79 => t_PUSH26
  | 0x7A => t_PUSH27
  | 0x7B => t_PUSH28
  | 0x7C => t_PUSH29
  | 0x7D => t_PUSH30
  | 0x7E => t_PUSH31
  | 0x7F => t_PUSH32
  | 0x06 => t_MOD
  | 0x07 => t_SMOD
  | 0x38 => t_CODESIZE
  | 0x35 => t_CALLDATALOAD
  | 0x36 => t_CALLDATASIZE
  | 0x08 => t_ADDMOD
  | 0x09 => t_MULMOD
  | 0x51 => t_MLOAD
  | 0x52 => t_MSTORE
  | 0x53 => t_MSTORE8
  | 0x39 => t_CODECOPY
  | 0x37 => t_CALLDATACOPY
  | 0x80 => t_DUP1
  | 0x81 => t_DUP2
  | 0x82 => t_DUP3
  | 0x83 => t_DUP4
  | 0x84 => t_DUP5
  | 0x85 => t_DUP6
  | 0x86 => t_DUP7
  | 0x87 => t_DUP8
  | 0x88 => t_DUP9
  | 0x89 => t_DUP10
  | 0x8A => t_DUP11
  | 0x8B => t_DUP12
  | 0x8C => t_DUP13
  | 0x8D => t_DUP14
  | 0x8E => t_DUP15
  | 0x8F => t_DUP16
  | 0x90 => t_SWAP1
  | 0x91 => t_SWAP2
  | 0x92 => t_SWAP3
  | 0x93 => t_SWAP4
  | 0x94 => t_SWAP5
  | 0x95 => t_SWAP6
  | 0x96 => t_SWAP7
  | 0x97 => t_SWAP8
  | 0x98 => t_SWAP9
  | 0x99 => t_SWAP10
  | 0x9A => t_SWAP11
  | 0x9B => t_SWAP12
  | 0x9C => t_SWAP13
  | 0x9D => t_SWAP14
  | 0x9E => t_SWAP15
  | 0x9F => t_SWAP16
  | 0xF3 => t_RETURN
  | 0xFD => t_REVERT
  | 0xFE => t_INVALID
  | 0x00 => t_STOP
  | 0x5B => t_JUMPDEST
  | 0x56 => t_JUMP
  | 0x57 => t_JUMPI
  | _ => eval_external

/-- The dense-switch dispatcher body of `eval_match`
(`core/src/eval/mod.rs` lines 60-178): the action taken for byte `b` fetched
at `position`. The default arm is the external trap. -/
def matchStep (st : Machine) (b : Nat) (position : Nat) : Machine × Control :=
  match b with
  | 0x01 => op2_u256_fn st overflowing_add
  | 0x02 => op2_u256_fn st overflowing_mul
  | 0x03 => op2_u256_fn st overflowing_sub
  | 0x04 => op2_u256_fn st arithmetic.div
  | 0x05 => op2_u256_fn st arithmetic.sdiv
  | 0x0A => op2_u256_fn st arithmetic.exp
  | 0x0B => op2_u256_fn st arithmetic.signextend
  | 0x10 => op2_u256_bool st (fun a b => decide (a < b))
  | 0x11 => op2_u256_bool st (fun a b => decide (b < a))
  | 0x12 => op2_u256_fn st bitwise.slt
  | 0x13 => op2_u256_fn st bitwise.sgt
  | 0x14 => op2_u256_bool st (fun a b => decide (a = b))
  | 0x15 => op1_u256_fn st bitwise.iszero
  | 0x16 => op2_u256_fn st Nat.land
  | 0x17 => op2_u256_fn st Nat.lor
  | 0x18 => op2_u256_fn st Nat.xor
  | 0x19 => op1_u256_fn st bitwise.not
  | 0x1A => op2_u256_fn st bitwise.byte
  | 0x1B => op2_u256_fn st bitwise.shl
  | 0x1C => op2_u256_fn st bitwise.shr
  | 0x1D => op2_u256_fn st bitwise.sar
  | 0x50 => misc.pop st
  | 0x58 => misc.pc st position
  | 0x59 => misc.msize st
  | 0x60 => misc.push st 1 position
  | 0x61 => misc.push st 2 position
  | 0x62 => misc.push st 3 position
  | 0x63 => misc.push st 4 position
  | 0x64 => misc.push st 5 position
  | 0x65 => misc.push st 6 position
  | 0x66 => misc.push st 7 position
  | 0x67 => misc.push st 8 position
  | 0x68 => misc.push st 9 position
  | 0x69 => misc.push st 10 position
  | 0x6A => misc.push st 11 position
  | 0x6B => misc.push st 12 position
  | 0x6C => misc.push st 13 position
  | 0x6D => misc.push st 14 position
  | 0x6E => misc.push st 15 position
  | 0x6F => misc.push st 16 position
  | 0x70 => misc.push st 17 position
  | 0x71 => misc.push st 18 position
  | 0x72 => misc.push st 19 position
  | 0x73 => misc.push st 20 position
  | 0x74 => misc.push st 21 position
  | 0x75 => misc.push st 22 position
  | 0x76 => misc.push st 23 position
  | 0x77 => misc.push st 24 position
  | 0x78 => misc.push st 25 position
  | 0x79 => misc.push st 26 position
  | 0x7A => misc.push st 27 position
  | 0x7B => misc.push st 28 position
  | 0x7C => misc.push st 29 position
  | 0x7D => misc.push st 30 position
  | 0x7E => misc.push st 31 position
  | 0x7F => misc.push st 32 position
  | 0x06 => op2_u256_fn st arithmetic.rem
  | 0x07 => op2_u256_fn st arithmetic.srem
  | 0x38 => misc.codesize st
  | 0x35 => misc.calldataload st
  | 0x36 => misc.calldatasize st
  | 0x08 => op3_u256_fn st arithmetic.addmod
  | 0x09 => op3_u256_fn st arithmetic.mulmod
  | 0x51 => misc.mload st
  | 0x52 => misc.mstore st
  | 0x53 => misc.mstore8 st
  | 0x39 => misc.codecopy st
  | 0x37 => misc.calldatacopy st
  | 0x80 => misc.dup st 1
  | 0x81 => misc.dup st 2
  | 0x82 => misc.dup st 3
  | 0x83 => misc.dup st 4
  | 0x84 => misc.dup st 5
  | 0x85 => misc.dup st 6
  | 0x86 => misc.dup st 7
  | 0x87 => misc.dup st 8
  | 0x88 => misc.dup st 9
  | 0x89 => misc.dup st 10
  | 0x8A => misc.dup st 11
  | 0x8B => misc.dup st 12
  | 0x8C => misc.dup st 13
  | 0x8D => misc.dup st 14
  | 0x8E => misc.dup st 15
  | 0x8F => misc.dup st 16
  | 0x90 => misc.swap st 1
  | 0x91 => misc.swap st 2
  | 0x92 => misc.swap st 3
  | 0x93 => misc.swap st 4
  | 0x94 => misc.swap st 5
  | 0x95 => misc.swap st 6
  | 0x96 => misc.swap st 7
  | 0x97 => misc.swap st 8
  | 0x98 => misc.swap st 9
  | 0x99 => misc.swap st 10
  | 0x9A => misc.swap st 11
  | 0x9B => misc.swap st 12
  | 0x9C => misc.swap st 13
  | 0x9D => misc.swap st 14
  | 0x9E => misc.swap st 15
  | 0x9F => misc.swap st 16
  | 0xF3 => misc.ret st
  | 0xFD => misc.revert st
  | 0xFE => (st, .Exit (.Error .DesignatedInvalid))
  | 0x00 => (st, .Exit (.Succeed .Stopped))
  | 0x5B => (st, .Continue 1)
  | 0x56 => misc.jump st
  | 0x57 => misc.jumpi st
  | b => ({ st with position := .ok (position + 1) }, .Trap (Opcode.mk b))

/-- A host as the core sees it: `InterpreterHandler::before_bytecode`
(`core/src/lib.rs` lines 49-60), with its `&mut self` state threaded
explicitly as a value of type `H` (the `after_bytecode` hook is only
compiled under the `tracing` feature and does not alter control). -/
abbrev BeforeBytecode (H : Type) := H → Opcode → Nat → Machine → Nat → H × Option ExitError

/-- The dense-switch interpreter loop `eval_match`
(`core/src/eval/mod.rs` lines 36-196): fetch (implicit `STOP` past the code
end), `before_bytecode` hook (its error is latched and terminal), dispatch
through the match, then advance the PC on `Continue`/`Jump` and loop.
Fueled; `none` means the fuel ran out. -/
def evalMatchLoop {H : Type} (hb : BeforeBytecode H) (address : Nat) :
    Nat → Machine → Nat → H → Option (Machine × H × Control)
  | 0, _, _, _ => none
  | fuel + 1, st, pc, h =>
    match st.code.get? pc with
    | none =>
      some ({ st with position := .error (.Succeed .Stopped) }, h, .Exit (.Succeed .Stopped))
    | some b =>
      match hb h (Opcode.mk b.val) pc st address with
      | (h', some e) => some (st.exit (.Error e), h', .Exit (.Error e))
      | (h', none) =>
        match matchStep st b.val pc with
        | (st', .Continue bytes) => evalMatchLoop hb address fuel st' (pc + bytes) h'
        | (st', .Jump pos) => evalMatchLoop hb address fuel st' pos h'
        | (st', .Exit e) => some (st', h', .Exit e)
        | (st', .Trap op) => some (st', h', .Trap op)

/-- The table-dispatch interpreter loop `eval_table`
(`core/src/eval/mod.rs` lines 198-502): identical to `evalMatchLoop` except
that the instruction is dispatched through the 256-entry `TABLE`. -/
def evalTableLoop {H : Type} (hb : BeforeBytecode H) (address : Nat) :
    Nat → Machine → Nat → H → Option (Machine × H × Control)
  | 0, _, _, _ => none
  | fuel + 1, st, pc, h =>
    match st.code.get? pc with
    | none =>
      some ({ st with position := .error (.Succeed .Stopped) }, h, .Exit (.Succeed .Stopped))
    | some b =>
      match hb h (Opcode.mk b.val) pc st address with
      | (h', some e) => some (st.exit (.Error e), h', .Exit (.Error e))
      | (h', none) =>
        match (TABLE.getD b.val eval_external) st (Opcode.mk b.val) pc with
        | (st', .Continue bytes) => evalTableLoop hb address fuel st' (pc + bytes) h'
        | (st', .Jump pos) => evalTableLoop hb address fuel st' pos h'
        | (st', .Exit e) => some (st', h', .Exit e)
        | (st', .Trap op) => some (st', h', .Trap op)

/-- `eval` (`core/src/eval/mod.rs` lines 19-34): build-time selector between
the two dispatch strategies; the default build (no `match-interpreter`
feature) uses the table dispatcher. -/
def eval {H : Type} (hb : BeforeBytecode H) (address : Nat) (fuel : Nat)
    (st : Machine) (position : Nat) (h : H) : Option (Machine × H × Control) :=
  evalTableLoop hb address fuel st position h

/-- `Machine::step` (`core/src/lib.rs` lines 155-177): refuse with the
latched reason if `position` is an exit reason, otherwise run `eval`; an
`Exit` control latches the reason, a `Trap` is surfaced as-is. The
`Continue`/`Jump` arms model the source's `unreachable!` (the loop never
returns them) as `none`. -/
def Machine.step {H : Type} (hb : BeforeBytecode H) (address : Nat) (fuel : Nat)
    (st : Machine) (h : H) :
    Option (Machine × H × Except (Capture ExitReason Opcode) Unit) :=
  match st.position with
  | .error reason => some (st, h, .error (.Exit reason))
  | .ok position =>
    match eval hb address fuel st position h with
    | none => none
    | some (st', h', .Exit e) => some (st'.exit e, h', .error (.Exit e))
    | some (st', h', .Trap opcode) => some (st', h', .error (.Trap opcode))
    | some (_, _, .Continue _) => none
    | some (_, _, .Jump _) => none

/-- `SimpleInterpreterHandler` (`core/src/lib.rs` lines 179-222): counts
executed instructions and a per-opcode profile. -/
structure SimpleInterpreterHandler where
  executed : Nat
  profile : List Nat
  address : Nat
deriving DecidableEq

/-- `SimpleInterpreterHandler::new`. -/
def SimpleInterpreterHandler.new (address : Nat) : SimpleInterpreterHandler :=
  ⟨0, List.replicate 256 0, address⟩

/-- `SimpleInterpreterHandler`'s `before_bytecode`: bump the counters and
allow the instruction. -/
def simpleBefore : BeforeBytecode SimpleInterpreterHandler := fun h op _ _ _ =>
  ({ h with
      executed := h.executed + 1
      profile := h.profile.set op.byte (h.profile.getD op.byte 0 + 1) },
   none)

/-- Concrete machine for claim C1: two `JUMPDEST` (0x5B) bytes. -/
def c1_machine : Machine := Machine.new [0x5B, 0x5B] [] 1024 64

/-- The machine of claim C1 after one `step`: latched on implicit `STOP`. -/
def c1_final : Machine := { c1_machine with position := .error (.Succeed .Stopped) }

/-- The counting handler of claim C1 after one `step`: two instructions. -/
def c1_handler : SimpleInterpreterHandler := ⟨2, (List.replicate 256 0).set 0x5B 2, 0⟩

/-- Concrete exited machine for claim C6. -/
def c6_machine : Machine := (Machine.new [0x01] [] 16 16).exit (.Error .OutOfGas)

/-- The opcodes the core interpreter handles itself; every other byte falls
to the default (external) arm of both dispatchers. -/
def coreHandledBytes : List Nat :=
  List.range 12 ++ (List.range 14).map (fun i => 0x10 + i) ++
    [0x35, 0x36, 0x37, 0x38, 0x39] ++
    [0x50, 0x51, 0x52, 0x53, 0x56, 0x57, 0x58, 0x59, 0x5B] ++
    (List.range 32).map (fun i => 0x60 + i) ++
    (List.range 32).map (fun i => 0x80 + i) ++
    [0xF3, 0xFD, 0xFE]

/-- A byte is external iff the core does not handle it. -/
def isExternalByte (v : Nat) : Bool := !(coreHandledBytes.contains v)

/-- Concrete machine for claim C7: a single `SLOAD` (0x54) byte. -/
def c7_machine : Machine := Machine.new [0x54] [] 16 16

/-- The counting handler of claim C7 after fetching `SLOAD` once. -/
def c7_handler : SimpleInterpreterHandler := ⟨1, (List.replicate 256 0).set 0x54 1, 0⟩

/-- Concrete empty-code machine for claim C8. -/
def c8_machine : Machine := Machine.new [] [] 4 4

/-- Concrete machine for claim C5: a return range whose requested length
exceeds `usize::MAX`. -/
def c5_machine : Machine := { Machine.new [] [] 4 4 with return_range := (2 ^ 64, 2 ^ 65) }

/-- Concrete machine for the C5 witness: range `0..4` over memory `[1,2,3]`. -/
def c5_machine_w : Machine :=
  { Machine.new [] [] 4 64 with memory := ⟨[1, 2, 3], 64⟩, return_range := (0, 4) }

/-- `Context` (`runtime/src/lib.rs` is not under `src/`; fields per spec
section 3): callee address, caller address, apparent value — addresses are
H160 values modelled as `Nat`. -/
structure Context where
  address : Nat
  caller : Nat
  apparent_value : Nat
deriving DecidableEq

/-- A value transfer request (spec section 4.5). -/
structure Transfer where
  source : Nat
  target : Nat
  value : Nat
deriving DecidableEq

/-- `Runtime` (spec section 3): a machine plus per-invocation context and the
return-data buffer of the most recent nested call/create. -/
structure Runtime where
  context : Context
  return_data_buffer : List Nat
  machine : Machine
deriving DecidableEq

/-- `CallScheme` (spec glossary). -/
inductive CallScheme
  | Call
  | CallCode
  | DelegateCall
  | StaticCall
deriving DecidableEq

/-- `CreateScheme` (`system::create`, `runtime/src/eval/system.rs`). -/
inductive CreateScheme
  | Legacy (caller : Nat)
  | Create2 (caller : Nat) (salt : Nat) (code_hash : Nat)
deriving DecidableEq

/-- Runtime-level control (`Control<H>` in `runtime/src/eval/mod.rs` lines
12-17), parametrised by the host's call/create interrupt types. -/
inductive RControl (A B : Type)
  | Continue
  | CallInterrupt (i : A)
  | CreateInterrupt (i : B)
  | Exit (e : ExitReason)
deriving DecidableEq

/-- Early-return monad of the runtime helpers: `.error` carries the runtime
state and exit reason of a macro's early `return Control::Exit(..)`. -/
abbrev RM (α : Type) := Except (Runtime × ExitReason) α

/-- Replace the machine's stack. -/
def Runtime.withStack (rt : Runtime) (s : Stack) : Runtime :=
  { rt with machine := { rt.machine with stack := s } }

/-- Replace the machine's memory. -/
def Runtime.withMemory (rt : Runtime) (mem : Memory) : Runtime :=
  { rt with machine := { rt.machine with memory := mem } }

/-- The `pop_u256!` macro (`runtime/src/eval/mod.rs` lines 87-96): pop or
early-return `Control::Exit` of the stack error. -/
def pop_u256 (rt : Runtime) : RM (Nat × Runtime) :=
  match rt.machine.stack.pop with
  | .ok (v, s) => .ok (v, rt.withStack s)
  | .error e => .error (rt, .Error e)

/-- The `pop_h256!` macro (lines 97-110): pop a word and view it as 32
big-endian bytes; numerically the identity on this word model. -/
def pop_h256 (rt : Runtime) : RM (Nat × Runtime) := pop_u256 rt

/-- The `push_u256!` macro (lines 112-121). -/
def push_u256 (rt : Runtime) (v : Nat) : RM Runtime :=
  match rt.machine.stack.push v with
  | .ok s => .ok (rt.withStack s)
  | .error e => .error (rt, .Error e)

/-- The `push_h256!` macro (lines 122-131): push `U256::from_big_endian` of
the 32 bytes; numerically the identity. -/
def push_h256 (rt : Runtime) (v : Nat) : RM Runtime := push_u256 rt v

/-- The `try_or_fail!` macro (lines 132-139) applied to a memory result. -/
def memTry (rt : Runtime) (r : Except ExitReason Memory) : RM Runtime :=
  match r with
  | .ok mem => .ok (rt.withMemory mem)
  | .error e => .error (rt, e)

/-- The `as_usize_or_fail!` macro (lines 140-154). -/
def as_usize_or_fail (rt : Runtime) (v : Nat) (reason : ExitReason) : RM Nat :=
  if v > USIZE_MAX then .error (rt, reason)
  else .ok v

/-- `system::returndatacopy` (`runtime/src/eval/system.rs` lines 134-158):
pop `memory_offset`, `data_offset`, `len`; grow memory; fail `OutOfOffset`
when `data_offset + len` overflows or exceeds the buffer length (on `Nat`
the overflow arm of the source's `checked_add` coincides with the
comparison); otherwise copy from the return-data buffer. -/
def system.returndatacopy {A B : Type} (rt0 : Runtime) : Runtime × RControl A B :=
  match pop_u256 rt0 with
  | .error (rt, e) => (rt, .Exit e)
  | .ok (memory_offset, rt) =>
    match pop_u256 rt with
    | .error (rt, e) => (rt, .Exit e)
    | .ok (data_offset, rt) =>
      match pop_u256 rt with
      | .error (rt, e) => (rt, .Exit e)
      | .ok (len, rt) =>
        match memTry rt (rt.machine.memory.resize_offset memory_offset len) with
        | .error (rt, e) => (rt, .Exit e)
        | .ok rt =>
          if data_offset + len > rt.return_data_buffer.length then
            (rt, .Exit (.Error .OutOfOffset))
          else
            match rt.machine.memory.copy_large memory_offset data_offset len
                rt.return_data_buffer with
            | .ok mem => (rt.withMemory mem, .Continue)
            | .error e => (rt, .Exit e)

/-- The request handed to `Handler::call` (spec section 6). -/
structure CallArgs where
  to_address : Nat
  transfer : Option Transfer
  input : List Nat
  gas : Option Nat
  is_static : Bool
  context : Context
deriving DecidableEq

/-- The state `system::call` accumulates before invoking the host: the
request plus the output window kept for result handling. -/
structure CallScratch where
  args : CallArgs
  out_offset : Nat
  out_len : Nat
deriving DecidableEq

/-- First half of `system::call` (`runtime/src/eval/system.rs` lines
332-403), up to the `handler.call(..)` invocation: reset the return-data
buffer, pop `gas`, `to`, the scheme-dependent `value`, the four i/o window
words, grow memory for both windows, materialise the input bytes, and
derive the child context and the transfer from the `CallScheme`. Early
`return Control::Exit(..)` is the `.error` branch. -/
def system.callScratch (rt0 : Runtime) (scheme : CallScheme) :
    RM (Runtime × CallScratch) :=
  let rt : Runtime := { rt0 with return_data_buffer := [] }
  match pop_u256 rt with
  | .error r => .error r
  | .ok (gas, rt) =>
    match pop_h256 rt with
    | .error r => .error r
    | .ok (toWord, rt) =>
      let gas : Option Nat := if gas > U64_MAX then none else some gas
      match ((match scheme with
              | .Call | .CallCode => pop_u256 rt
              | .DelegateCall | .StaticCall => .ok (0, rt)) : RM (Nat × Runtime)) with
      | .error r => .error r
      | .ok (value, rt) =>
        match pop_u256 rt with
        | .error r => .error r
        | .ok (in_offset, rt) =>
          match pop_u256 rt with
          | .error r => .error r
          | .ok (in_len, rt) =>
            match pop_u256 rt with
            | .error r => .error r
            | .ok (out_offset, rt) =>
              match pop_u256 rt with
              | .error r => .error r
              | .ok (out_len, rt) =>
                match memTry rt (rt.machine.memory.resize_offset in_offset in_len) with
                | .error r => .error r
                | .ok rt =>
                  match memTry rt (rt.machine.memory.resize_offset out_offset out_len) with
                  | .error r => .error r
                  | .ok rt =>
                    match ((if in_len = 0 then .ok []
                            else
                              match as_usize_or_fail rt in_offset (.Fatal .NotSupported) with
                              | .error r => .error r
                              | .ok in_offset =>
                                match as_usize_or_fail rt in_len (.Fatal .NotSupported) with
                                | .error r => .error r
                                | .ok in_len =>
                                  .ok (rt.machine.memory.get in_offset in_len)) :
                           RM (List Nat)) with
                    | .error r => .error r
                    | .ok input =>
                      let context : Context :=
                        match scheme with
                        | .Call | .StaticCall => ⟨toH160 toWord, rt.context.address, value⟩
                        | .CallCode => ⟨rt.context.address, rt.context.address, value⟩
                        | .DelegateCall =>
                          ⟨rt.context.address, rt.context.caller, rt.context.apparent_value⟩
                      let transfer : Option Transfer :=
                        if scheme = .Call then
                          some ⟨rt.context.address, toH160 toWord, value⟩
                        else if scheme = .CallCode then
                          some ⟨rt.context.address, rt.context.address, value⟩
                        else none
                      .ok (rt, ⟨⟨toH160 toWord, transfer, input, gas,
                        decide (scheme = .StaticCall), context⟩, out_offset, out_len⟩)

/-- Second half of `system::call` (lines 405-463): handling of the host's
`Capture`. On `Exit`: record the return data, and per child reason copy
`min(out_len, len(return_data))` bytes to `out_offset` and push 1 (success),
push 0 then still copy (revert), push 0 only (error), or push 0 and
propagate the fatal. On `Trap`: push a zero word and surface the
interrupt. -/
def system.callFinish {A B : Type} (rt : Runtime) (sc : CallScratch)
    (res : Capture (ExitReason × List Nat) A) : Runtime × RControl A B :=
  match res with
  | .Exit (reason, return_data) =>
    let rt : Runtime := { rt with return_data_buffer := return_data }
    let target_len := min sc.out_len rt.return_data_buffer.length
    match reason with
    | .Succeed _ =>
      match rt.machine.memory.copy_large sc.out_offset 0 target_len
          rt.return_data_buffer with
      | .ok mem =>
        match push_u256 (rt.withMemory mem) 1 with
        | .ok rt => (rt, .Continue)
        | .error (rt, e) => (rt, .Exit e)
      | .error _ =>
        match push_u256 rt 0 with
        | .ok rt => (rt, .Continue)
        | .error (rt, e) => (rt, .Exit e)
    | .Revert _ =>
      match push_u256 rt 0 with
      | .error (rt, e) => (rt, .Exit e)
      | .ok rt =>
        match rt.machine.memory.copy_large sc.out_offset 0 target_len
            rt.return_data_buffer with
        | .ok mem => (rt.withMemory mem, .Continue)
        | .error _ => (rt, .Continue)
    | .Error _ =>
      match push_u256 rt 0 with
      | .ok rt => (rt, .Continue)
      | .error (rt, e) => (rt, .Exit e)
    | .Fatal e =>
      match push_u256 rt 0 with
      | .ok rt => (rt, .Exit (.Fatal e))
      | .error (rt, e2) => (rt, .Exit e2)
  | .Trap interrupt =>
    match push_h256 rt 0 with
    | .ok rt => (rt, .CallInterrupt interrupt)
    | .error (rt, e) => (rt, .Exit e)

/-- `system::call` (`runtime/src/eval/system.rs` lines 332-464), with the
host's call capability passed as a function. -/
def system.call {A B : Type} (rt0 : Runtime) (scheme : CallScheme)
    (hcall : CallArgs → Capture (ExitReason × List Nat) A) : Runtime × RControl A B :=
  match system.callScratch rt0 scheme with
  | .error (rt, e) => (rt, .Exit e)
  | .ok (rt, sc) => system.callFinish rt sc (hcall sc.args)

/-- The request handed to `Handler::create` (spec section 6). -/
structure CreateArgs where
  caller : Nat
  scheme : CreateScheme
  value : Nat
  init_code : List Nat
  gas : Option Nat
deriving DecidableEq

/-- First half of `system::create` (`runtime/src/eval/system.rs` lines
272-301), up to `handler.create(..)`: reset the buffer, pop `value`,
`code_offset`, `len`, grow memory, materialise the init code and build the
`CreateScheme` (`CREATE2` additionally pops a salt and hashes the code with
the injected `keccak`). -/
def system.createScratch (rt0 : Runtime) (is_create2 : Bool)
    (keccak : List Nat → Nat) : RM (Runtime × CreateArgs) :=
  let rt : Runtime := { rt0 with return_data_buffer := [] }
  match pop_u256 rt with
  | .error r => .error r
  | .ok (value, rt) =>
    match pop_u256 rt with
    | .error r => .error r
    | .ok (code_offset, rt) =>
      match pop_u256 rt with
      | .error r => .error r
      | .ok (len, rt) =>
        match memTry rt (rt.machine.memory.resize_offset code_offset len) with
        | .error r => .error r
        | .ok rt =>
          match ((if len = 0 then .ok []
                  else
                    match as_usize_or_fail rt code_offset (.Fatal .NotSupported) with
                    | .error r => .error r
                    | .ok code_offset =>
                      match as_usize_or_fail rt len (.Fatal .NotSupported) with
                      | .error r => .error r
                      | .ok len => .ok (rt.machine.memory.get code_offset len)) :
                 RM (List Nat)) with
          | .error r => .error r
          | .ok code =>
            match ((if is_create2 then
                      match pop_h256 rt with
                      | .error r => .error r
                      | .ok (salt, rt) =>
                        .ok (CreateScheme.Create2 rt.context.address salt (keccak code), rt)
                    else .ok (CreateScheme.Legacy rt.context.address, rt)) :
                   RM (CreateScheme × Runtime)) with
            | .error r => .error r
            | .ok (scheme, rt) =>
              .ok (rt, ⟨rt.context.address, scheme, value, code, none⟩)

/-- `system::create` (`runtime/src/eval/system.rs` lines 272-330): on host
`Exit`, record the return data and push the created address (success) or a
zero word (revert/error/fatal, the fatal also propagating); on host `Trap`,
push a zero word and surface the create interrupt. -/
def system.create {A B : Type} (rt0 : Runtime) (is_create2 : Bool)
    (keccak : List Nat → Nat)
    (hcreate : CreateArgs → Capture (ExitReason × Option Nat × List Nat) B) :
    Runtime × RControl A B :=
  match system.createScratch rt0 is_create2 keccak with
  | .error (rt, e) => (rt, .Exit e)
  | .ok (rt, args) =>
    match hcreate args with
    | .Exit (reason, address, return_data) =>
      let rt : Runtime := { rt with return_data_buffer := return_data }
      let create_address := address.getD 0
      match reason with
      | .Succeed _ =>
        match push_h256 rt create_address with
        | .ok rt => (rt, .Continue)
        | .error (rt, e) => (rt, .Exit e)
      | .Revert _ =>
        match push_h256 rt 0 with
        | .ok rt => (rt, .Continue)
        | .error (rt, e) => (rt, .Exit e)
      | .Error _ =>
        match push_h256 rt 0 with
        | .ok rt => (rt, .Continue)
        | .error (rt, e) => (rt, .Exit e)
      | .Fatal e =>
        match push_h256 rt 0 with
        | .ok rt => (rt, .Exit (.Fatal e))
        | .error (rt, e2) => (rt, .Exit e2)
    | .Trap interrupt =>
      match push_h256 rt 0 with
      | .ok rt => (rt, .CreateInterrupt interrupt)
      | .error (rt, e) => (rt, .Exit e)

/-- Push a word on a non-full stack, as a state transformer. -/
def pushWord (rt : Runtime) (v : Nat) : Runtime :=
  rt.withStack ⟨v :: rt.machine.stack.data, rt.machine.stack.limit⟩

/-- Concrete runtime for claim C4: `RETURNDATACOPY` operands
`(0, 0, 1)` with an empty return-data buffer. -/
def c4_runtime : Runtime :=
  ⟨⟨1, 2, 3⟩, [], { Machine.new [] [] 1024 64 with stack := ⟨[0, 0, 1], 1024⟩ }⟩

/-- The scheme-dependent stack operand of `system::call`: `Call`/`CallCode`
pop a value word, `DelegateCall`/`StaticCall` do not. -/
def schemeOperand (scheme : CallScheme) (value : Nat) : List Nat :=
  match scheme with
  | .Call | .CallCode => [value]
  | .DelegateCall | .StaticCall => []

/-- Concrete runtime for the C9 witness: a `CALL` with gas 9, target 5,
value 7 and empty i/o windows. -/
def c9_rt : Runtime :=
  ⟨⟨1, 2, 3⟩, [7, 7], { Machine.new [] [] 1024 32 with stack := ⟨[9, 5, 7, 0, 0, 0, 0], 1024⟩ }⟩

/-- The runtime after the C9 witness's operand pops. -/
def c9_rt1 : Runtime :=
  ⟨⟨1, 2, 3⟩, [], { Machine.new [] [] 1024 32 with stack := ⟨[], 1024⟩ }⟩

/-- The scratch state the C9 witness hands to the host. -/
def c9_sc : CallScratch :=
  ⟨⟨5, some ⟨1, 5, 7⟩, [], some 9, false, ⟨5, 1, 7⟩⟩, 0, 0⟩

/-- Concrete call runtime for the C10 witness. -/
def c10_crt : Runtime :=
  ⟨⟨1, 2, 3⟩, [], { Machine.new [] [] 1024 32 with stack := ⟨[9, 5, 7, 0, 0, 0, 0], 1024⟩ }⟩

/-- The C10 call runtime after its operand pops. -/
def c10_crt1 : Runtime :=
  ⟨⟨1, 2, 3⟩, [], { Machine.new [] [] 1024 32 with stack := ⟨[], 1024⟩ }⟩

/-- The scratch state of the C10 call. -/
def c10_csc : CallScratch :=
  ⟨⟨5, some ⟨1, 5, 7⟩, [], some 9, false, ⟨5, 1, 7⟩⟩, 0, 0⟩

/-- Concrete create runtime for the C10 witness. -/
def c10_krt : Runtime :=
  ⟨⟨1, 2, 3⟩, [], { Machine.new [] [] 1024 32 with stack := ⟨[7, 0, 0], 1024⟩ }⟩

/-- The C10 create runtime after its operand pops. -/
def c10_krt1 : Runtime :=
  ⟨⟨1, 2, 3⟩, [], { Machine.new [] [] 1024 32 with stack := ⟨[], 1024⟩ }⟩

/-- The create request of the C10 witness. -/
def c10_kargs : CreateArgs := ⟨1, .Legacy 1, 7, [], none⟩

/-- Concrete runtime for the C3 witness: a `CALL` with empty i/o windows. -/
def c3_rt : Runtime :=
  ⟨⟨1, 2, 3⟩, [], { Machine.new [] [] 1024 32 with stack := ⟨[9, 5, 7, 0, 0, 0, 0], 1024⟩ }⟩

/-- The C3 runtime after its operand pops. -/
def c3_rt1 : Runtime :=
  ⟨⟨1, 2, 3⟩, [], { Machine.new [] [] 1024 32 with stack := ⟨[], 1024⟩ }⟩

/-- The scratch state of the C3 witness. -/
def c3_sc : CallScratch :=
  ⟨⟨5, some ⟨1, 5, 7⟩, [], some 9, false, ⟨5, 1, 7⟩⟩, 0, 0⟩

/-- The host response of the C3 witness: child success with return data. -/
def c3_host : CallArgs → Capture (ExitReason × List Nat) Unit :=
  fun _ => .Exit (.Succeed .Stopped, [170, 187])

set_option maxRecDepth 20000 in
/-- The assignment chain of `TABLE` yields exactly the entries of
`tableOf`. -/
theorem TABLE_eq : TABLE = (List.range 256).map tableOf := by rfl

-- Per-byte agreement of the table entry with the dense-switch arm: one
-- lemma per byte value, each a plain reduction of both dispatch forms.
theorem dispatch_case_0 (st : Machine) (position : Nat) : tableOf 0 st (Opcode.mk 0) position = matchStep st 0 position := rfl
theorem dispatch_case_1 (st : Machine) (position : Nat) : tableOf 1 st (Opcode.mk 1) position = matchStep st 1 position := rfl
theorem dispatch_case_2 (st : Machine) (position : Nat) : tableOf 2 st (Opcode.mk 2) position = matchStep st 2 position := rfl
theorem dispatch_case_3 (st : Machine) (position : Nat) : tableOf 3 st (Opcode.mk 3) position = matchStep st 3 position := rfl
theorem dispatch_case_4 (st : Machine) (position : Nat) : tableOf 4 st (Opcode.mk 4) position = matchStep st 4 position := rfl
theorem dispatch_case_5 (st : Machine) (position : Nat) : tableOf 5 st (Opcode.mk 5) position = matchStep st 5 position := rfl
theorem dispatch_case_6 (st : Machine) (position : Nat) : tableOf 6 st (Opcode.mk 6) position = matchStep st 6 position := rfl
theorem dispatch_case_7 (st : Machine) (position : Nat) : tableOf 7 st (Opcode.mk 7) position = matchStep st 7 position := rfl
theorem dispatch_case_8 (st : Machine) (position : Nat) : tableOf 8 st (Opcode.mk 8) position = matchStep st 8 position := rfl
theorem dispatch_case_9 (st : Machine) (position : Nat) : tableOf 9 st (Opcode.mk 9) position = matchStep st 9 position := rfl
theorem dispatch_case_10 (st : Machine) (position : Nat) : tableOf 10 st (Opcode.mk 10) position = matchStep st 10 position := rfl
theorem dispatch_case_11 (st : Machine) (position : Nat) : tableOf 11 st (Opcode.mk 11) position = matchStep st 11 position := rfl
theorem dispatch_case_12 (st : Machine) (position : Nat) : tableOf 12 st (Opcode.mk 12) position = matchStep st 12 position := rfl
theorem dispatch_case_13 (st : Machine) (position : Nat) : tableOf 13 st (Opcode.mk 13) position = matchStep st 13 position := rfl
theorem dispatch_case_14 (st : Machine) (position : Nat) : tableOf 14 st (Opcode.mk 14) position = matchStep st 14 position := rfl
theorem dispatch_case_15 (st : Machine) (position : Nat) : tableOf 15 st (Opcode.mk 15) position = matchStep st 15 position := rfl
theorem dispatch_case_16 (st : Machine) (position : Nat) : tableOf 16 st (Opcode.mk 16) position = matchStep st 16 position := rfl
theorem dispatch_case_17 (st : Machine) (position : Nat) : tableOf 17 st (Opcode.mk 17) position = matchStep st 17 position := rfl
theorem dispatch_case_18 (st : Machine) (position : Nat) : tableOf 18 st (Opcode.mk 18) position = matchStep st 18 position := rfl
theorem dispatch_case_19 (st : Machine) (position : Nat) : tableOf 19 st (Opcode.mk 19) position = matchStep st 19 position := rfl
theorem dispatch_case_20 (st : Machine) (position : Nat) : tableOf 20 st (Opcode.mk 20) position = matchStep st 20 position := rfl
theorem dispatch_case_21 (st : Machine) (position : Nat) : tableOf 21 st (Opcode.mk 21) position = matchStep st 21 position := rfl
theorem dispatch_case_22 (st : Machine) (position : Nat) : tableOf 22 st (Opcode.mk 22) position = matchStep st 22 position := rfl
theorem dispatch_case_23 (st : Machine) (position : Nat) : tableOf 23 st (Opcode.mk 23) position = matchStep st 23 position := rfl
theorem dispatch_case_24 (st : Machine) (position : Nat) : tableOf 24 st (Opcode.mk 24) position = matchStep st 24 position := rfl
theorem dispatch_case_25 (st : Machine) (position : Nat) : tableOf 25 st (Opcode.mk 25) position = matchStep st 25 position := rfl
theorem dispatch_case_26 (st : Machine) (position : Nat) : tableOf 26 st (Opcode.mk 26) position = matchStep st 26 position := rfl
theorem dispatch_case_27 (st : Machine) (position : Nat) : tableOf 27 st (Opcode.mk 27) position = matchStep st 27 position := rfl
theorem dispatch_case_28 (st : Machine) (position : Nat) : tableOf 28 st (Opcode.mk 28) position = matchStep st 28 position := rfl
theorem dispatch_case_29 (st : Machine) (position : Nat) : tableOf 29 st (Opcode.mk 29) position = matchStep st 29 position := rfl
theorem dispatch_case_30 (st : Machine) (position : Nat) : tableOf 30 st (Opcode.mk 30) position = matchStep st 30 position := rfl
theorem dispatch_case_31 (st : Machine) (position : Nat) : tableOf 31 st (Opcode.mk 31) position = matchStep st 31 position := rfl
theorem dispatch_case_32 (st : Machine) (position : Nat) : tableOf 32 st (Opcode.mk 32) position = matchStep st 32 position := rfl
theorem dispatch_case_33 (st : Machine) (position : Nat) : tableOf 33 st (Opcode.mk 33) position = matchStep st 33 position := rfl
theorem dispatch_case_34 (st : Machine) (position : Nat) : tableOf 34 st (Opcode.mk 34) position = matchStep st 34 position := rfl
theorem dispatch_case_35 (st : Machine) (position : Nat) : tableOf 35 st (Opcode.mk 35) position = matchStep st 35 position := rfl
theorem dispatch_case_36 (st : Machine) (position : Nat) : tableOf 36 st (Opcode.mk 36) position = matchStep st 36 position := rfl
theorem dispatch_case_37 (st : Machine) (position : Nat) : tableOf 37 st (Opcode.mk 37) position = matchStep st 37 position := rfl
theorem dispatch_case_38 (st : Machine) (position : Nat) : tableOf 38 st (Opcode.mk 38) position = matchStep st 38 position := rfl
theorem dispatch_case_39 (st : Machine) (position : Nat) : tableOf 39 st (Opcode.mk 39) position = matchStep st 39 position := rfl
theorem dispatch_case_40 (st : Machine) (position : Nat) : tableOf 40 st (Opcode.mk 40) position = matchStep st 40 position := rfl
theorem dispatch_case_41 (st : Machine) (position : Nat) : tableOf 41 st (Opcode.mk 41) position = matchStep st 41 position := rfl
theorem dispatch_case_42 (st : Machine) (position : Nat) : tableOf 42 st (Opcode.mk 42) position = matchStep st 42 position := rfl
theorem dispatch_case_43 (st : Machine) (position : Nat) : tableOf 43 st (Opcode.mk 43) position = matchStep st 43 position := rfl
theorem dispatch_case_44 (st : Machine) (position : Nat) : tableOf 44 st (Opcode.mk 44) position = matchStep st 44 position := rfl
theorem dispatch_case_45 (st : Machine) (position : Nat) : tableOf 45 st (Opcode.mk 45) position = matchStep st 45 position := rfl
theorem dispatch_case_46 (st : Machine) (position : Nat) : tableOf 46 st (Opcode.mk 46) position = matchStep st 46 position := rfl
theorem dispatch_case_47 (st : Machine) (position : Nat) : tableOf 47 st (Opcode.mk 47) position = matchStep st 47 position := rfl
theorem dispatch_case_48 (st : Machine) (position : Nat) : tableOf 48 st (Opcode.mk 48) position = matchStep st 48 position := rfl
theorem dispatch_case_49 (st : Machine) (position : Nat) : tableOf 49 st (Opcode.mk 49) position = matchStep st 49 position := rfl
theorem dispatch_case_50 (st : Machine) (position : Nat) : tableOf 50 st (Opcode.mk 50) position = matchStep st 50 position := rfl
theorem dispatch_case_51 (st : Machine) (position : Nat) : tableOf 51 st (Opcode.mk 51) position = matchStep st 51 position := rfl
theorem dispatch_case_52 (st : Machine) (position : Nat) : tableOf 52 st (Opcode.mk 52) position = matchStep st 52 position := rfl
theorem dispatch_case_53 (st : Machine) (position : Nat) : tableOf 53 st (Opcode.mk 53) position = matchStep st 53 position := rfl
theorem dispatch_case_54 (st : Machine) (position : Nat) : tableOf 54 st (Opcode.mk 54) position = matchStep st 54 position := rfl
theorem dispatch_case_55 (st : Machine) (position : Nat) : tableOf 55 st (Opcode.mk 55) position = matchStep st 55 position := rfl
theorem dispatch_case_56 (st : Machine) (position : Nat) : tableOf 56 st (Opcode.mk 56) position = matchStep st 56 position := rfl
theorem dispatch_case_57 (st : Machine) (position : Nat) : tableOf 57 st (Opcode.mk 57) position = matchStep st 57 position := rfl
theorem dispatch_case_58 (st : Machine) (position : Nat) : tableOf 58 st (Opcode.mk 58) position = matchStep st 58 position := rfl
theorem dispatch_case_59 (st : Machine) (position : Nat) : tableOf 59 st (Opcode.mk 59) position = matchStep st 59 position := rfl
theorem dispatch_case_60 (st : Machine) (position : Nat) : tableOf 60 st (Opcode.mk 60) position = matchStep st 60 position := rfl
theorem dispatch_case_61 (st : Machine) (position : Nat) : tableOf 61 st (Opcode.mk 61) position = matchStep st 61 position := rfl
theorem dispatch_case_62 (st : Machine) (position : Nat) : tableOf 62 st (Opcode.mk 62) position = matchStep st 62 position := rfl
theorem dispatch_case_63 (st : Machine) (position : Nat) : tableOf 63 st (Opcode.mk 63) position = matchStep st 63 position := rfl
theorem dispatch_case_64 (st : Machine) (position : Nat) : tableOf 64 st (Opcode.mk 64) position = matchStep st 64 position := rfl
theorem dispatch_case_65 (st : Machine) (position : Nat) : tableOf 65 st (Opcode.mk 65) position = matchStep st 65 position := rfl
theorem dispatch_case_66 (st : Machine) (position : Nat) : tableOf 66 st (Opcode.mk 66) position = matchStep st 66 position := rfl
theorem dispatch_case_67 (st : Machine) (position : Nat) : tableOf 67 st (Opcode.mk 67) position = matchStep st 67 position := rfl
theorem dispatch_case_68 (st : Machine) (position : Nat) : tableOf 68 st (Opcode.mk 68) position = matchStep st 68 position := rfl
theorem dispatch_case_69 (st : Machine) (position : Nat) : tableOf 69 st (Opcode.mk 69) position = matchStep st 69 position := rfl
theorem dispatch_case_70 (st : Machine) (position : Nat) : tableOf 70 st (Opcode.mk 70) position = matchStep st 70 position := rfl
theorem dispatch_case_71 (st : Machine) (position : Nat) : tableOf 71 st (Opcode.mk 71) position = matchStep st 71 position := rfl
theorem dispatch_case_72 (st : Machine) (position : Nat) : tableOf 72 st (Opcode.mk 72) position = matchStep st 72 position := rfl
theorem dispatch_case_73 (st : Machine) (position : Nat) : tableOf 73 st (Opcode.mk 73) position = matchStep st 73 position := rfl
theorem dispatch_case_74 (st : Machine) (position : Nat) : tableOf 74 st (Opcode.mk 74) position = matchStep st 74 position := rfl
theorem dispatch_case_75 (st : Machine) (position : Nat) : tableOf 75 st (Opcode.mk 75) position = matchStep st 75 position := rfl
theorem dispatch_case_76 (st : Machine) (position : Nat) : tableOf 76 st (Opcode.mk 76) position = matchStep st 76 position := rfl
theorem dispatch_case_77 (st : Machine) (position : Nat) : tableOf 77 st (Opcode.mk 77) position = matchStep st 77 position := rfl
theorem dispatch_case_78 (st : Machine) (position : Nat) : tableOf 78 st (Opcode.mk 78) position = matchStep st 78 position := rfl
theorem dispatch_case_79 (st : Machine) (position : Nat) : tableOf 79 st (Opcode.mk 79) position = matchStep st 79 position := rfl
theorem dispatch_case_80 (st : Machine) (position : Nat) : tableOf 80 st (Opcode.mk 80) position = matchStep st 80 position := rfl
theorem dispatch_case_81 (st : Machine) (position : Nat) : tableOf 81 st (Opcode.mk 81) position = matchStep st 81 position := rfl
theorem dispatch_case_82 (st : Machine) (position : Nat) : tableOf 82 st (Opcode.mk 82) position = matchStep st 82 position := rfl
theorem dispatch_case_83 (st : Machine) (position : Nat) : tableOf 83 st (Opcode.mk 83) position = matchStep st 83 position := rfl
theorem dispatch_case_84 (st : Machine) (position : Nat) : tableOf 84 st (Opcode.mk 84) position = matchStep st 84 position := rfl
theorem dispatch_case_85 (st : Machine) (position : Nat) : tableOf 85 st (Opcode.mk 85) position = matchStep st 85 position := rfl
theorem dispatch_case_86 (st : Machine) (position : Nat) : tableOf 86 st (Opcode.mk 86) position = matchStep st 86 position := rfl
theorem dispatch_case_87 (st : Machine) (position : Nat) : tableOf 87 st (Opcode.mk 87) position = matchStep st 87 position := rfl
theorem dispatch_case_88 (st : Machine) (position : Nat) : tableOf 88 st (Opcode.mk 88) position = matchStep st 88 position := rfl
theorem dispatch_case_89 (st : Machine) (position : Nat) : tableOf 89 st (Opcode.mk 89) position = matchStep st 89 position := rfl
theorem dispatch_case_90 (st : Machine) (position : Nat) : tableOf 90 st (Opcode.mk 90) position = matchStep st 90 position := rfl
theorem dispatch_case_91 (st : Machine) (position : Nat) : tableOf 91 st (Opcode.mk 91) position = matchStep st 91 position := rfl
theorem dispatch_case_92 (st : Machine) (position : Nat) : tableOf 92 st (Opcode.mk 92) position = matchStep st 92 position := rfl
theorem dispatch_case_93 (st : Machine) (position : Nat) : tableOf 93 st (Opcode.mk 93) position = matchStep st 93 position := rfl
theorem dispatch_case_94 (st : Machine) (position : Nat) : tableOf 94 st (Opcode.mk 94) position = matchStep st 94 position := rfl
theorem dispatch_case_95 (st : Machine) (position : Nat) : tableOf 95 st (Opcode.mk 95) position = matchStep st 95 position := rfl
theorem dispatch_case_96 (st : Machine) (position : Nat) : tableOf 96 st (Opcode.mk 96) position = matchStep st 96 position := rfl
theorem dispatch_case_97 (st : Machine) (position : Nat) : tableOf 97 st (Opcode.mk 97) position = matchStep st 97 position := rfl
theorem dispatch_case_98 (st : Machine) (position : Nat) : tableOf 98 st (Opcode.mk 98) position = matchStep st 98 position := rfl
theorem dispatch_case_99 (st : Machine) (position : Nat) : tableOf 99 st (Opcode.mk 99) position = matchStep st 99 position := rfl
theorem dispatch_case_100 (st : Machine) (position : Nat) : tableOf 100 st (Opcode.mk 100) position = matchStep st 100 position := rfl
theorem dispatch_case_101 (st : Machine) (position : Nat) : tableOf 101 st (Opcode.mk 101) position = matchStep st 101 position := rfl
theorem dispatch_case_102 (st : Machine) (position : Nat) : tableOf 102 st (Opcode.mk 102) position = matchStep st 102 position := rfl
theorem dispatch_case_103 (st : Machine) (position : Nat) : tableOf 103 st (Opcode.mk 103) position = matchStep st 103 position := rfl
theorem dispatch_case_104 (st : Machine) (position : Nat) : tableOf 104 st (Opcode.mk 104) position = matchStep st 104 position := rfl
theorem dispatch_case_105 (st : Machine) (position : Nat) : tableOf 105 st (Opcode.mk 105) position = matchStep st 105 position := rfl
theorem dispatch_case_106 (st : Machine) (position : Nat) : tableOf 106 st (Opcode.mk 106) position = matchStep st 106 position := rfl
theorem dispatch_case_107 (st : Machine) (position : Nat) : tableOf 107 st (Opcode.mk 107) position = matchStep st 107 position := rfl
theorem dispatch_case_108 (st : Machine) (position : Nat) : tableOf 108 st (Opcode.mk 108) position = matchStep st 108 position := rfl
theorem dispatch_case_109 (st : Machine) (position : Nat) : tableOf 109 st (Opcode.mk 109) position = matchStep st 109 position := rfl
theorem dispatch_case_110 (st : Machine) (position : Nat) : tableOf 110 st (Opcode.mk 110) position = matchStep st 110 position := rfl
theorem dispatch_case_111 (st : Machine) (position : Nat) : tableOf 111 st (Opcode.mk 111) position = matchStep st 111 position := rfl
theorem dispatch_case_112 (st : Machine) (position : Nat) : tableOf 112 st (Opcode.mk 112) position = matchStep st 112 position := rfl
theorem dispatch_case_113 (st : Machine) (position : Nat) : tableOf 113 st (Opcode.mk 113) position = matchStep st 113 position := rfl
theorem dispatch_case_114 (st : Machine) (position : Nat) : tableOf 114 st (Opcode.mk 114) position = matchStep st 114 position := rfl
theorem dispatch_case_115 (st : Machine) (position : Nat) : tableOf 115 st (Opcode.mk 115) position = matchStep st 115 position := rfl
theorem dispatch_case_116 (st : Machine) (position : Nat) : tableOf 116 st (Opcode.mk 116) position = matchStep st 116 position := rfl
theorem dispatch_case_117 (st : Machine) (position : Nat) : tableOf 117 st (Opcode.mk 117) position = matchStep st 117 position := rfl
theorem dispatch_case_118 (st : Machine) (position : Nat) : tableOf 118 st (Opcode.mk 118) position = matchStep st 118 position := rfl
theorem dispatch_case_119 (st : Machine) (position : Nat) : tableOf 119 st (Opcode.mk 119) position = matchStep st 119 position := rfl
theorem dispatch_case_120 (st : Machine) (position : Nat) : tableOf 120 st (Opcode.mk 120) position = matchStep st 120 position := rfl
theorem dispatch_case_121 (st : Machine) (position : Nat) : tableOf 121 st (Opcode.mk 121) position = matchStep st 121 position := rfl
theorem dispatch_case_122 (st : Machine) (position : Nat) : tableOf 122 st (Opcode.mk 122) position = matchStep st 122 position := rfl
theorem dispatch_case_123 (st : Machine) (position : Nat) : tableOf 123 st (Opcode.mk 123) position = matchStep st 123 position := rfl
theorem dispatch_case_124 (st : Machine) (position : Nat) : tableOf 124 st (Opcode.mk 124) position = matchStep st 124 position := rfl
theorem dispatch_case_125 (st : Machine) (position : Nat) : tableOf 125 st (Opcode.mk 125) position = matchStep st 125 position := rfl
theorem dispatch_case_126 (st : Machine) (position : Nat) : tableOf 126 st (Opcode.mk 126) position = matchStep st 126 position := rfl
theorem dispatch_case_127 (st : Machine) (position : Nat) : tableOf 127 st (Opcode.mk 127) position = matchStep st 127 position := rfl
theorem dispatch_case_128 (st : Machine) (position : Nat) : tableOf 128 st (Opcode.mk 128) position = matchStep st 128 position := rfl
theorem dispatch_case_129 (st : Machine) (position : Nat) : tableOf 129 st (Opcode.mk 129) position = matchStep st 129 position := rfl
theorem dispatch_case_130 (st : Machine) (position : Nat) : tableOf 130 st (Opcode.mk 130) position = matchStep st 130 position := rfl
theorem dispatch_case_131 (st : Machine) (position : Nat) : tableOf 131 st (Opcode.mk 131) position = matchStep st 131 position := rfl
theorem dispatch_case_132 (st : Machine) (position : Nat) : tableOf 132 st (Opcode.mk 132) position = matchStep st 132 position := rfl
theorem dispatch_case_133 (st : Machine) (position : Nat) : tableOf 133 st (Opcode.mk 133) position = matchStep st 133 position := rfl
theorem dispatch_case_134 (st : Machine) (position : Nat) : tableOf 134 st (Opcode.mk 134) position = matchStep st 134 position := rfl
theorem dispatch_case_135 (st : Machine) (position : Nat) : tableOf 135 st (Opcode.mk 135) position = matchStep st 135 position := rfl
theorem dispatch_case_136 (st : Machine) (position : Nat) : tableOf 136 st (Opcode.mk 136) position = matchStep st 136 position := rfl
theorem dispatch_case_137 (st : Machine) (position : Nat) : tableOf 137 st (Opcode.mk 137) position = matchStep st 137 position := rfl
theorem dispatch_case_138 (st : Machine) (position : Nat) : tableOf 138 st (Opcode.mk 138) position = matchStep st 138 position := rfl
theorem dispatch_case_139 (st : Machine) (position : Nat) : tableOf 139 st (Opcode.mk 139) position = matchStep st 139 position := rfl
theorem dispatch_case_140 (st : Machine) (position : Nat) : tableOf 140 st (Opcode.mk 140) position = matchStep st 140 position := rfl
theorem dispatch_case_141 (st : Machine) (position : Nat) : tableOf 141 st (Opcode.mk 141) position = matchStep st 141 position := rfl
theorem dispatch_case_142 (st : Machine) (position : Nat) : tableOf 142 st (Opcode.mk 142) position = matchStep st 142 position := rfl
theorem dispatch_case_143 (st : Machine) (position : Nat) : tableOf 143 st (Opcode.mk 143) position = matchStep st 143 position := rfl
theorem dispatch_case_144 (st : Machine) (position : Nat) : tableOf 144 st (Opcode.mk 144) position = matchStep st 144 position := rfl
theorem dispatch_case_145 (st : Machine) (position : Nat) : tableOf 145 st (Opcode.mk 145) position = matchStep st 145 position := rfl
theorem dispatch_case_146 (st : Machine) (position : Nat) : tableOf 146 st (Opcode.mk 146) position = matchStep st 146 position := rfl
theorem dispatch_case_147 (st : Machine) (position : Nat) : tableOf 147 st (Opcode.mk 147) position = matchStep st 147 position := rfl
theorem dispatch_case_148 (st : Machine) (position : Nat) : tableOf 148 st (Opcode.mk 148) position = matchStep st 148 position := rfl
theorem dispatch_case_149 (st : Machine) (position : Nat) : tableOf 149 st (Opcode.mk 149) position = matchStep st 149 position := rfl
theorem dispatch_case_150 (st : Machine) (position : Nat) : tableOf 150 st (Opcode.mk 150) position = matchStep st 150 position := rfl
theorem dispatch_case_151 (st : Machine) (position : Nat) : tableOf 151 st (Opcode.mk 151) position = matchStep st 151 position := rfl
theorem dispatch_case_152 (st : Machine) (position : Nat) : tableOf 152 st (Opcode.mk 152) position = matchStep st 152 position := rfl
theorem dispatch_case_153 (st : Machine) (position : Nat) : tableOf 153 st (Opcode.mk 153) position = matchStep st 153 position := rfl
theorem dispatch_case_154 (st : Machine) (position : Nat) : tableOf 154 st (Opcode.mk 154) position = matchStep st 154 position := rfl
theorem dispatch_case_155 (st : Machine) (position : Nat) : tableOf 155 st (Opcode.mk 155) position = matchStep st 155 position := rfl
theorem dispatch_case_156 (st : Machine) (position : Nat) : tableOf 156 st (Opcode.mk 156) position = matchStep st 156 position := rfl
theorem dispatch_case_157 (st : Machine) (position : Nat) : tableOf 157 st (Opcode.mk 157) position = matchStep st 157 position := rfl
theorem dispatch_case_158 (st : Machine) (position : Nat) : tableOf 158 st (Opcode.mk 158) position = matchStep st 158 position := rfl
theorem dispatch_case_159 (st : Machine) (position : Nat) : tableOf 159 st (Opcode.mk 159) position = matchStep st 159 position := rfl
theorem dispatch_case_160 (st : Machine) (position : Nat) : tableOf 160 st (Opcode.mk 160) position = matchStep st 160 position := rfl
theorem dispatch_case_161 (st : Machine) (position : Nat) : tableOf 161 st (Opcode.mk 161) position = matchStep st 161 position := rfl
theorem dispatch_case_162 (st : Machine) (position : Nat) : tableOf 162 st (Opcode.mk 162) position = matchStep st 162 position := rfl
theorem dispatch_case_163 (st : Machine) (position : Nat) : tableOf 163 st (Opcode.mk 163) position = matchStep st 163 position := rfl
theorem dispatch_case_164 (st : Machine) (position : Nat) : tableOf 164 st (Opcode.mk 164) position = matchStep st 164 position := rfl
theorem dispatch_case_165 (st : Machine) (position : Nat) : tableOf 165 st (Opcode.mk 165) position = matchStep st 165 position := rfl
theorem dispatch_case_166 (st : Machine) (position : Nat) : tableOf 166 st (Opcode.mk 166) position = matchStep st 166 position := rfl
theorem dispatch_case_167 (st : Machine) (position : Nat) : tableOf 167 st (Opcode.mk 167) position = matchStep st 167 position := rfl
theorem dispatch_case_168 (st : Machine) (position : Nat) : tableOf 168 st (Opcode.mk 168) position = matchStep st 168 position := rfl
theorem dispatch_case_169 (st : Machine) (position : Nat) : tableOf 169 st (Opcode.mk 169) position = matchStep st 169 position := rfl
theorem dispatch_case_170 (st : Machine) (position : Nat) : tableOf 170 st (Opcode.mk 170) position = matchStep st 170 position := rfl
theorem dispatch_case_171 (st : Machine) (position : Nat) : tableOf 171 st (Opcode.mk 171) position = matchStep st 171 position := rfl
theorem dispatch_case_172 (st : Machine) (position : Nat) : tableOf 172 st (Opcode.mk 172) position = matchStep st 172 position := rfl
theorem dispatch_case_173 (st : Machine) (position : Nat) : tableOf 173 st (Opcode.mk 173) position = matchStep st 173 position := rfl
theorem dispatch_case_174 (st : Machine) (position : Nat) : tableOf 174 st (Opcode.mk 174) position = matchStep st 174 position := rfl
theorem dispatch_case_175 (st : Machine) (position : Nat) : tableOf 175 st (Opcode.mk 175) position = matchStep st 175 position := rfl
theorem dispatch_case_176 (st : Machine) (position : Nat) : tableOf 176 st (Opcode.mk 176) position = matchStep st 176 position := rfl
theorem dispatch_case_177 (st : Machine) (position : Nat) : tableOf 177 st (Opcode.mk 177) position = matchStep st 177 position := rfl
theorem dispatch_case_178 (st : Machine) (position : Nat) : tableOf 178 st (Opcode.mk 178) position = matchStep st 178 position := rfl
theorem dispatch_case_179 (st : Machine) (position : Nat) : tableOf 179 st (Opcode.mk 179) position = matchStep st 179 position := rfl
theorem dispatch_case_180 (st : Machine) (position : Nat) : tableOf 180 st (Opcode.mk 180) position = matchStep st 180 position := rfl
theorem dispatch_case_181 (st : Machine) (position : Nat) : tableOf 181 st (Opcode.mk 181) position = matchStep st 181 position := rfl
theorem dispatch_case_182 (st : Machine) (position : Nat) : tableOf 182 st (Opcode.mk 182) position = matchStep st 182 position := rfl
theorem dispatch_case_183 (st : Machine) (position : Nat) : tableOf 183 st (Opcode.mk 183) position = matchStep st 183 position := rfl
theorem dispatch_case_184 (st : Machine) (position : Nat) : tableOf 184 st (Opcode.mk 184) position = matchStep st 184 position := rfl
theorem dispatch_case_185 (st : Machine) (position : Nat) : tableOf 185 st (Opcode.mk 185) position = matchStep st 185 position := rfl
theorem dispatch_case_186 (st : Machine) (position : Nat) : tableOf 186 st (Opcode.mk 186) position = matchStep st 186 position := rfl
theorem dispatch_case_187 (st : Machine) (position : Nat) : tableOf 187 st (Opcode.mk 187) position = matchStep st 187 position := rfl
theorem dispatch_case_188 (st : Machine) (position : Nat) : tableOf 188 st (Opcode.mk 188) position = matchStep st 188 position := rfl
theorem dispatch_case_189 (st : Machine) (position : Nat) : tableOf 189 st (Opcode.mk 189) position = matchStep st 189 position := rfl
theorem dispatch_case_190 (st : Machine) (position : Nat) : tableOf 190 st (Opcode.mk 190) position = matchStep st 190 position := rfl
theorem dispatch_case_191 (st : Machine) (position : Nat) : tableOf 191 st (Opcode.mk 191) position = matchStep st 191 position := rfl
theorem dispatch_case_192 (st : Machine) (position : Nat) : tableOf 192 st (Opcode.mk 192) position = matchStep st 192 position := rfl
theorem dispatch_case_193 (st : Machine) (position : Nat) : tableOf 193 st (Opcode.mk 193) position = matchStep st 193 position := rfl
theorem dispatch_case_194 (st : Machine) (position : Nat) : tableOf 194 st (Opcode.mk 194) position = matchStep st 194 position := rfl
theorem dispatch_case_195 (st : Machine) (position : Nat) : tableOf 195 st (Opcode.mk 195) position = matchStep st 195 position := rfl
theorem dispatch_case_196 (st : Machine) (position : Nat) : tableOf 196 st (Opcode.mk 196) position = matchStep st 196 position := rfl
theorem dispatch_case_197 (st : Machine) (position : Nat) : tableOf 197 st (Opcode.mk 197) position = matchStep st 197 position := rfl
theorem dispatch_case_198 (st : Machine) (position : Nat) : tableOf 198 st (Opcode.mk 198) position = matchStep st 198 position := rfl
theorem dispatch_case_199 (st : Machine) (position : Nat) : tableOf 199 st (Opcode.mk 199) position = matchStep st 199 position := rfl
theorem dispatch_case_200 (st : Machine) (position : Nat) : tableOf 200 st (Opcode.mk 200) position = matchStep st 200 position := rfl
theorem dispatch_case_201 (st : Machine) (position : Nat) : tableOf 201 st (Opcode.mk 201) position = matchStep st 201 position := rfl
theorem dispatch_case_202 (st : Machine) (position : Nat) : tableOf 202 st (Opcode.mk 202) position = matchStep st 202 position := rfl
theorem dispatch_case_203 (st : Machine) (position : Nat) : tableOf 203 st (Opcode.mk 203) position = matchStep st 203 position := rfl
theorem dispatch_case_204 (st : Machine) (position : Nat) : tableOf 204 st (Opcode.mk 204) position = matchStep st 204 position := rfl
theorem dispatch_case_205 (st : Machine) (position : Nat) : tableOf 205 st (Opcode.mk 205) position = matchStep st 205 position := rfl
theorem dispatch_case_206 (st : Machine) (position : Nat) : tableOf 206 st (Opcode.mk 206) position = matchStep st 206 position := rfl
theorem dispatch_case_207 (st : Machine) (position : Nat) : tableOf 207 st (Opcode.mk 207) position = matchStep st 207 position := rfl
theorem dispatch_case_208 (st : Machine) (position : Nat) : tableOf 208 st (Opcode.mk 208) position = matchStep st 208 position := rfl
theorem dispatch_case_209 (st : Machine) (position : Nat) : tableOf 209 st (Opcode.mk 209) position = matchStep st 209 position := rfl
theorem dispatch_case_210 (st : Machine) (position : Nat) : tableOf 210 st (Opcode.mk 210) position = matchStep st 210 position := rfl
theorem dispatch_case_211 (st : Machine) (position : Nat) : tableOf 211 st (Opcode.mk 211) position = matchStep st 211 position := rfl
theorem dispatch_case_212 (st : Machine) (position : Nat) : tableOf 212 st (Opcode.mk 212) position = matchStep st 212 position := rfl
theorem dispatch_case_213 (st : Machine) (position : Nat) : tableOf 213 st (Opcode.mk 213) position = matchStep st 213 position := rfl
theorem dispatch_case_214 (st : Machine) (position : Nat) : tableOf 214 st (Opcode.mk 214) position = matchStep st 214 position := rfl
theorem dispatch_case_215 (st : Machine) (position : Nat) : tableOf 215 st (Opcode.mk 215) position = matchStep st 215 position := rfl
theorem dispatch_case_216 (st : Machine) (position : Nat) : tableOf 216 st (Opcode.mk 216) position = matchStep st 216 position := rfl
theorem dispatch_case_217 (st : Machine) (position : Nat) : tableOf 217 st (Opcode.mk 217) position = matchStep st 217 position := rfl
theorem dispatch_case_218 (st : Machine) (position : Nat) : tableOf 218 st (Opcode.mk 218) position = matchStep st 218 position := rfl
theorem dispatch_case_219 (st : Machine) (position : Nat) : tableOf 219 st (Opcode.mk 219) position = matchStep st 219 position := rfl
theorem dispatch_case_220 (st : Machine) (position : Nat) : tableOf 220 st (Opcode.mk 220) position = matchStep st 220 position := rfl
theorem dispatch_case_221 (st : Machine) (position : Nat) : tableOf 221 st (Opcode.mk 221) position = matchStep st 221 position := rfl
theorem dispatch_case_222 (st : Machine) (position : Nat) : tableOf 222 st (Opcode.mk 222) position = matchStep st 222 position := rfl
theorem dispatch_case_223 (st : Machine) (position : Nat) : tableOf 223 st (Opcode.mk 223) position = matchStep st 223 position := rfl
theorem dispatch_case_224 (st : Machine) (position : Nat) : tableOf 224 st (Opcode.mk 224) position = matchStep st 224 position := rfl
theorem dispatch_case_225 (st : Machine) (position : Nat) : tableOf 225 st (Opcode.mk 225) position = matchStep st 225 position := rfl
theorem dispatch_case_226 (st : Machine) (position : Nat) : tableOf 226 st (Opcode.mk 226) position = matchStep st 226 position := rfl
theorem dispatch_case_227 (st : Machine) (position : Nat) : tableOf 227 st (Opcode.mk 227) position = matchStep st 227 position := rfl
theorem dispatch_case_228 (st : Machine) (position : Nat) : tableOf 228 st (Opcode.mk 228) position = matchStep st 228 position := rfl
theorem dispatch_case_229 (st : Machine) (position : Nat) : tableOf 229 st (Opcode.mk 229) position = matchStep st 229 position := rfl
theorem dispatch_case_230 (st : Machine) (position : Nat) : tableOf 230 st (Opcode.mk 230) position = matchStep st 230 position := rfl
theorem dispatch_case_231 (st : Machine) (position : Nat) : tableOf 231 st (Opcode.mk 231) position = matchStep st 231 position := rfl
theorem dispatch_case_232 (st : Machine) (position : Nat) : tableOf 232 st (Opcode.mk 232) position = matchStep st 232 position := rfl
theorem dispatch_case_233 (st : Machine) (position : Nat) : tableOf 233 st (Opcode.mk 233) position = matchStep st 233 position := rfl
theorem dispatch_case_234 (st : Machine) (position : Nat) : tableOf 234 st (Opcode.mk 234) position = matchStep st 234 position := rfl
theorem dispatch_case_235 (st : Machine) (position : Nat) : tableOf 235 st (Opcode.mk 235) position = matchStep st 235 position := rfl
theorem dispatch_case_236 (st : Machine) (position : Nat) : tableOf 236 st (Opcode.mk 236) position = matchStep st 236 position := rfl
theorem dispatch_case_237 (st : Machine) (position : Nat) : tableOf 237 st (Opcode.mk 237) position = matchStep st 237 position := rfl
theorem dispatch_case_238 (st : Machine) (position : Nat) : tableOf 238 st (Opcode.mk 238) position = matchStep st 238 position := rfl
theorem dispatch_case_239 (st : Machine) (position : Nat) : tableOf 239 st (Opcode.mk 239) position = matchStep st 239 position := rfl
theorem dispatch_case_240 (st : Machine) (position : Nat) : tableOf 240 st (Opcode.mk 240) position = matchStep st 240 position := rfl
theorem dispatch_case_241 (st : Machine) (position : Nat) : tableOf 241 st (Opcode.mk 241) position = matchStep st 241 position := rfl
theorem dispatch_case_242 (st : Machine) (position : Nat) : tableOf 242 st (Opcode.mk 242) position = matchStep st 242 position := rfl
theorem dispatch_case_243 (st : Machine) (position : Nat) : tableOf 243 st (Opcode.mk 243) position = matchStep st 243 position := rfl
theorem dispatch_case_244 (st : Machine) (position : Nat) : tableOf 244 st (Opcode.mk 244) position = matchStep st 244 position := rfl
theorem dispatch_case_245 (st : Machine) (position : Nat) : tableOf 245 st (Opcode.mk 245) position = matchStep st 245 position := rfl
theorem dispatch_case_246 (st : Machine) (position : Nat) : tableOf 246 st (Opcode.mk 246) position = matchStep st 246 position := rfl
theorem dispatch_case_247 (st : Machine) (position : Nat) : tableOf 247 st (Opcode.mk 247) position = matchStep st 247 position := rfl
theorem dispatch_case_248 (st : Machine) (position : Nat) : tableOf 248 st (Opcode.mk 248) position = matchStep st 248 position := rfl
theorem dispatch_case_249 (st : Machine) (position : Nat) : tableOf 249 st (Opcode.mk 249) position = matchStep st 249 position := rfl
theorem dispatch_case_250 (st : Machine) (position : Nat) : tableOf 250 st (Opcode.mk 250) position = matchStep st 250 position := rfl
theorem dispatch_case_251 (st : Machine) (position : Nat) : tableOf 251 st (Opcode.mk 251) position = matchStep st 251 position := rfl
theorem dispatch_case_252 (st : Machine) (position : Nat) : tableOf 252 st (Opcode.mk 252) position = matchStep st 252 position := rfl
theorem dispatch_case_253 (st : Machine) (position : Nat) : tableOf 253 st (Opcode.mk 253) position = matchStep st 253 position := rfl
theorem dispatch_case_254 (st : Machine) (position : Nat) : tableOf 254 st (Opcode.mk 254) position = matchStep st 254 position := rfl
theorem dispatch_case_255 (st : Machine) (position : Nat) : tableOf 255 st (Opcode.mk 255) position = matchStep st 255 position := rfl

/-- For every byte the table entry and the match arm act identically. -/
theorem tableOf_eq_matchStep (v : Nat) (hv : v < 256) (st : Machine) (position : Nat) :
    tableOf v st (Opcode.mk v) position = matchStep st v position :=
  match v, hv with
  | 0, _ => dispatch_case_0 st position
  | 1, _ => dispatch_case_1 st position
  | 2, _ => dispatch_case_2 st position
  | 3, _ => dispatch_case_3 st position
  | 4, _ => dispatch_case_4 st position
  | 5, _ => dispatch_case_5 st position
  | 6, _ => dispatch_case_6 st position
  | 7, _ => dispatch_case_7 st position
  | 8, _ => dispatch_case_8 st position
  | 9, _ => dispatch_case_9 st position
  | 10, _ => dispatch_case_10 st position
  | 11, _ => dispatch_case_11 st position
  | 12, _ => dispatch_case_12 st position
  | 13, _ => dispatch_case_13 st position
  | 14, _ => dispatch_case_14 st position
  | 15, _ => dispatch_case_15 st position
  | 16, _ => dispatch_case_16 st position
  | 17, _ => dispatch_case_17 st position
  | 18, _ => dispatch_case_18 st position
  | 19, _ => dispatch_case_19 st position
  | 20, _ => dispatch_case_20 st position
  | 21, _ => dispatch_case_21 st position
  | 22, _ => dispatch_case_22 st position
  | 23, _ => dispatch_case_23 st position
  | 24, _ => dispatch_case_24 st position
  | 25, _ => dispatch_case_25 st position
  | 26, _ => dispatch_case_26 st position
  | 27, _ => dispatch_case_27 st position
  | 28, _ => dispatch_case_28 st position
  | 29, _ => dispatch_case_29 st position
  | 30, _ => dispatch_case_30 st position
  | 31, _ => dispatch_case_31 st position
  | 32, _ => dispatch_case_32 st position
  | 33, _ => dispatch_case_33 st position
  | 34, _ => dispatch_case_34 st position
  | 35, _ => dispatch_case_35 st position
  | 36, _ => dispatch_case_36 st position
  | 37, _ => dispatch_case_37 st position
  | 38, _ => dispatch_case_38 st position
  | 39, _ => dispatch_case_39 st position
  | 40, _ => dispatch_case_40 st position
  | 41, _ => dispatch_case_41 st position
  | 42, _ => dispatch_case_42 st position
  | 43, _ => dispatch_case_43 st position
  | 44, _ => dispatch_case_44 st position
  | 45, _ => dispatch_case_45 st position
  | 46, _ => dispatch_case_46 st position
  | 47, _ => dispatch_case_47 st position
  | 48, _ => dispatch_case_48 st position
  | 49, _ => dispatch_case_49 st position
  | 50, _ => dispatch_case_50 st position
  | 51, _ => dispatch_case_51 st position
  | 52, _ => dispatch_case_52 st position
  | 53, _ => dispatch_case_53 st position
  | 54, _ => dispatch_case_54 st position
  | 55, _ => dispatch_case_55 st position
  | 56, _ => dispatch_case_56 st position
  | 57, _ => dispatch_case_57 st position
  | 58, _ => dispatch_case_58 st position
  | 59, _ => dispatch_case_59 st position
  | 60, _ => dispatch_case_60 st position
  | 61, _ => dispatch_case_61 st position
  | 62, _ => dispatch_case_62 st position
  | 63, _ => dispatch_case_63 st position
  | 64, _ => dispatch_case_64 st position
  | 65, _ => dispatch_case_65 st position
  | 66, _ => dispatch_case_66 st position
  | 67, _ => dispatch_case_67 st position
  | 68, _ => dispatch_case_68 st position
  | 69, _ => dispatch_case_69 st position
  | 70, _ => dispatch_case_70 st position
  | 71, _ => dispatch_case_71 st position
  | 72, _ => dispatch_case_72 st position
  | 73, _ => dispatch_case_73 st position
  | 74, _ => dispatch_case_74 st position
  | 75, _ => dispatch_case_75 st position
  | 76, _ => dispatch_case_76 st position
  | 77, _ => dispatch_case_77 st position
  | 78, _ => dispatch_case_78 st position
  | 79, _ => dispatch_case_79 st position
  | 80, _ => dispatch_case_80 st position
  | 81, _ => dispatch_case_81 st position
  | 82, _ => dispatch_case_82 st position
  | 83, _ => dispatch_case_83 st position
  | 84, _ => dispatch_case_84 st position
  | 85, _ => dispatch_case_85 st position
  | 86, _ => dispatch_case_86 st position
  | 87, _ => dispatch_case_87 st position
  | 88, _ => dispatch_case_88 st position
  | 89, _ => dispatch_case_89 st position
  | 90, _ => dispatch_case_90 st position
  | 91, _ => dispatch_case_91 st position
  | 92, _ => dispatch_case_92 st position
  | 93, _ => dispatch_case_93 st position
  | 94, _ => dispatch_case_94 st position
  | 95, _ => dispatch_case_95 st position
  | 96, _ => dispatch_case_96 st position
  | 97, _ => dispatch_case_97 st position
  | 98, _ => dispatch_case_98 st position
  | 99, _ => dispatch_case_99 st position
  | 100, _ => dispatch_case_100 st position
  | 101, _ => dispatch_case_101 st position
  | 102, _ => dispatch_case_102 st position
  | 103, _ => dispatch_case_103 st position
  | 104, _ => dispatch_case_104 st position
  | 105, _ => dispatch_case_105 st position
  | 106, _ => dispatch_case_106 st position
  | 107, _ => dispatch_case_107 st position
  | 108, _ => dispatch_case_108 st position
  | 109, _ => dispatch_case_109 st position
  | 110, _ => dispatch_case_110 st position
  | 111, _ => dispatch_case_111 st position
  | 112, _ => dispatch_case_112 st position
  | 113, _ => dispatch_case_113 st position
  | 114, _ => dispatch_case_114 st position
  | 115, _ => dispatch_case_115 st position
  | 116, _ => dispatch_case_116 st position
  | 117, _ => dispatch_case_117 st position
  | 118, _ => dispatch_case_118 st position
  | 119, _ => dispatch_case_119 st position
  | 120, _ => dispatch_case_120 st position
  | 121, _ => dispatch_case_121 st position
  | 122, _ => dispatch_case_122 st position
  | 123, _ => dispatch_case_123 st position
  | 124, _ => dispatch_case_124 st position
  | 125, _ => dispatch_case_125 st position
  | 126, _ => dispatch_case_126 st position
  | 127, _ => dispatch_case_127 st position
  | 128, _ => dispatch_case_128 st position
  | 129, _ => dispatch_case_129 st position
  | 130, _ => dispatch_case_130 st position
  | 131, _ => dispatch_case_131 st position
  | 132, _ => dispatch_case_132 st position
  | 133, _ => dispatch_case_133 st position
  | 134, _ => dispatch_case_134 st position
  | 135, _ => dispatch_case_135 st position
  | 136, _ => dispatch_case_136 st position
  | 137, _ => dispatch_case_137 st position
  | 138, _ => dispatch_case_138 st position
  | 139, _ => dispatch_case_139 st position
  | 140, _ => dispatch_case_140 st position
  | 141, _ => dispatch_case_141 st position
  | 142, _ => dispatch_case_142 st position
  | 143, _ => dispatch_case_143 st position
  | 144, _ => dispatch_case_144 st position
  | 145, _ => dispatch_case_145 st position
  | 146, _ => dispatch_case_146 st position
  | 147, _ => dispatch_case_147 st position
  | 148, _ => dispatch_case_148 st position
  | 149, _ => dispatch_case_149 st position
  | 150, _ => dispatch_case_150 st position
  | 151, _ => dispatch_case_151 st position
  | 152, _ => dispatch_case_152 st position
  | 153, _ => dispatch_case_153 st position
  | 154, _ => dispatch_case_154 st position
  | 155, _ => dispatch_case_155 st position
  | 156, _ => dispatch_case_156 st position
  | 157, _ => dispatch_case_157 st position
  | 158, _ => dispatch_case_158 st position
  | 159, _ => dispatch_case_159 st position
  | 160, _ => dispatch_case_160 st position
  | 161, _ => dispatch_case_161 st position
  | 162, _ => dispatch_case_162 st position
  | 163, _ => dispatch_case_163 st position
  | 164, _ => dispatch_case_164 st position
  | 165, _ => dispatch_case_165 st position
  | 166, _ => dispatch_case_166 st position
  | 167, _ => dispatch_case_167 st position
  | 168, _ => dispatch_case_168 st position
  | 169, _ => dispatch_case_169 st position
  | 170, _ => dispatch_case_170 st position
  | 171, _ => dispatch_case_171 st position
  | 172, _ => dispatch_case_172 st position
  | 173, _ => dispatch_case_173 st position
  | 174, _ => dispatch_case_174 st position
  | 175, _ => dispatch_case_175 st position
  | 176, _ => dispatch_case_176 st position
  | 177, _ => dispatch_case_177 st position
  | 178, _ => dispatch_case_178 st position
  | 179, _ => dispatch_case_179 st position
  | 180, _ => dispatch_case_180 st position
  | 181, _ => dispatch_case_181 st position
  | 182, _ => dispatch_case_182 st position
  | 183, _ => dispatch_case_183 st position
  | 184, _ => dispatch_case_184 st position
  | 185, _ => dispatch_case_185 st position
  | 186, _ => dispatch_case_186 st position
  | 187, _ => dispatch_case_187 st position
  | 188, _ => dispatch_case_188 st position
  | 189, _ => dispatch_case_189 st position
  | 190, _ => dispatch_case_190 st position
  | 191, _ => dispatch_case_191 st position
  | 192, _ => dispatch_case_192 st position
  | 193, _ => dispatch_case_193 st position
  | 194, _ => dispatch_case_194 st position
  | 195, _ => dispatch_case_195 st position
  | 196, _ => dispatch_case_196 st position
  | 197, _ => dispatch_case_197 st position
  | 198, _ => dispatch_case_198 st position
  | 199, _ => dispatch_case_199 st position
  | 200, _ => dispatch_case_200 st position
  | 201, _ => dispatch_case_201 st position
  | 202, _ => dispatch_case_202 st position
  | 203, _ => dispatch_case_203 st position
  | 204, _ => dispatch_case_204 st position
  | 205, _ => dispatch_case_205 st position
  | 206, _ => dispatch_case_206 st position
  | 207, _ => dispatch_case_207 st position
  | 208, _ => dispatch_case_208 st position
  | 209, _ => dispatch_case_209 st position
  | 210, _ => dispatch_case_210 st position
  | 211, _ => dispatch_case_211 st position
  | 212, _ => dispatch_case_212 st position
  | 213, _ => dispatch_case_213 st position
  | 214, _ => dispatch_case_214 st position
  | 215, _ => dispatch_case_215 st position
  | 216, _ => dispatch_case_216 st position
  | 217, _ => dispatch_case_217 st position
  | 218, _ => dispatch_case_218 st position
  | 219, _ => dispatch_case_219 st position
  | 220, _ => dispatch_case_220 st position
  | 221, _ => dispatch_case_221 st position
  | 222, _ => dispatch_case_222 st position
  | 223, _ => dispatch_case_223 st position
  | 224, _ => dispatch_case_224 st position
  | 225, _ => dispatch_case_225 st position
  | 226, _ => dispatch_case_226 st position
  | 227, _ => dispatch_case_227 st position
  | 228, _ => dispatch_case_228 st position
  | 229, _ => dispatch_case_229 st position
  | 230, _ => dispatch_case_230 st position
  | 231, _ => dispatch_case_231 st position
  | 232, _ => dispatch_case_232 st position
  | 233, _ => dispatch_case_233 st position
  | 234, _ => dispatch_case_234 st position
  | 235, _ => dispatch_case_235 st position
  | 236, _ => dispatch_case_236 st position
  | 237, _ => dispatch_case_237 st position
  | 238, _ => dispatch_case_238 st position
  | 239, _ => dispatch_case_239 st position
  | 240, _ => dispatch_case_240 st position
  | 241, _ => dispatch_case_241 st position
  | 242, _ => dispatch_case_242 st position
  | 243, _ => dispatch_case_243 st position
  | 244, _ => dispatch_case_244 st position
  | 245, _ => dispatch_case_245 st position
  | 246, _ => dispatch_case_246 st position
  | 247, _ => dispatch_case_247 st position
  | 248, _ => dispatch_case_248 st position
  | 249, _ => dispatch_case_249 st position
  | 250, _ => dispatch_case_250 st position
  | 251, _ => dispatch_case_251 st position
  | 252, _ => dispatch_case_252 st position
  | 253, _ => dispatch_case_253 st position
  | 254, _ => dispatch_case_254 st position
  | 255, _ => dispatch_case_255 st position
  | n+256, h => absurd h (by omega)

/-- Lookup in the mapped range form of the table. -/
theorem getD_map_range (f : Nat → OpFn) (v n : Nat) (hv : v < n) (d : OpFn) :
    ((List.range n).map f).getD v d = f v := by
  rw [List.getD_eq_getElem?_getD, List.getElem?_map, List.getElem?_range hv]
  rfl

/-- Dispatching byte `b` through `TABLE` equals the dense-switch action. -/
theorem table_dispatch_eq (b : Fin 256) (st : Machine) (position : Nat) :
    (TABLE.getD b.val eval_external) st (Opcode.mk b.val) position =
      matchStep st b.val position := by
  rw [TABLE_eq, getD_map_range tableOf b.val 256 b.isLt]
  exact tableOf_eq_matchStep b.val b.isLt st position

/-- The interpreter loop only ever hands back an `Exit` or a `Trap` control;
`Continue`/`Jump` never escape (the source marks them `unreachable!`). -/
theorem evalTableLoop_exit_or_trap {H : Type} (hb : BeforeBytecode H) (address : Nat) :
    ∀ (fuel : Nat) (st : Machine) (pc : Nat) (h : H) (st' : Machine) (h' : H) (c : Control),
      evalTableLoop hb address fuel st pc h = some (st', h', c) →
      (∃ e, c = .Exit e) ∨ (∃ op, c = .Trap op) := by
  intro fuel
  induction fuel with
  | zero =>
    intro st pc h st' h' c hx
    simp [evalTableLoop] at hx
  | succ n ih =>
    intro st pc h st' h' c hx
    simp only [evalTableLoop] at hx
    cases hcode : st.code.get? pc with
    | none =>
      simp only [hcode] at hx
      cases hx
      exact Or.inl ⟨_, rfl⟩
    | some b =>
      simp only [hcode] at hx
      rcases hhb : hb h (Opcode.mk b.val) pc st address with ⟨h2, r⟩
      simp only [hhb] at hx
      cases r with
      | some e =>
        cases hx
        exact Or.inl ⟨_, rfl⟩
      | none =>
        rcases hms : (TABLE.getD b.val eval_external) st (Opcode.mk b.val) pc with ⟨st2, c2⟩
        simp only [hms] at hx
        cases c2 with
        | Continue bytes => exact ih _ _ _ _ _ _ hx
        | Jump pos => exact ih _ _ _ _ _ _ hx
        | Exit e =>
          cases hx
          exact Or.inl ⟨_, rfl⟩
        | Trap op =>
          cases hx
          exact Or.inr ⟨_, rfl⟩

/-- C1 (amended): a single call to `step` on a live machine executes
instructions until one exits or traps; it never returns success `Ok(())`
— every produced result is either `Capture::Exit(e)` with `e` latched into
the machine's position (machine dead) or `Capture::Trap(op)` (machine
suspended). -/
theorem step_runs_to_exit_or_trap {H : Type} (hb : BeforeBytecode H) (address fuel : Nat)
    (st : Machine) (h : H) (st' : Machine) (h' : H)
    (r : Except (Capture ExitReason Opcode) Unit)
    (hx : Machine.step hb address fuel st h = some (st', h', r)) :
    (∃ e, r = .error (.Exit e) ∧ st'.position = .error e) ∨
      (∃ op, r = .error (.Trap op)) := by
  unfold Machine.step at hx
  cases hpos : st.position with
  | error reason =>
    simp only [hpos] at hx
    cases hx
    exact Or.inl ⟨reason, rfl, hpos⟩
  | ok position =>
    simp only [hpos] at hx
    rcases heval : eval hb address fuel st position h with _ | ⟨st2, h2, c⟩
    · simp only [heval] at hx
      exact Option.noConfusion hx
    · simp only [heval] at hx
      cases c with
      | Continue bytes => exact Option.noConfusion hx
      | Jump pos => exact Option.noConfusion hx
      | Exit e =>
        cases hx
        exact Or.inl ⟨e, rfl, rfl⟩
      | Trap op =>
        cases hx
        exact Or.inr ⟨op, rfl⟩

/-- C1 (counterexample): on code `[JUMPDEST, JUMPDEST]` the `JUMPDEST` at
position 0 neither exits nor traps (its control is `Continue 1`), yet a
single `step` call does not return `Ok(())` and does not stop after one
instruction: it runs both `JUMPDEST`s (the handler's `executed` counter
reaches 2) and returns `Capture::Exit(Succeed(Stopped))`. -/
theorem c1_step_not_single_instruction :
    (matchStep c1_machine 0x5B 0).2 = Control.Continue 1 ∧
    (Machine.step simpleBefore 0 5 c1_machine (SimpleInterpreterHandler.new 0)).map
        (fun r => (r.2.2, r.2.1.executed)) =
      some (.error (.Exit (.Succeed .Stopped)), 2) := ⟨rfl, rfl⟩

/-- C1 (witness): the amended theorem applied to the concrete machine of the
counterexample; one `step` call produced `Capture::Exit(Succeed(Stopped))`
with the reason latched. -/
theorem c1_step_witness :
    (∃ e, (Except.error (Capture.Exit (ExitReason.Succeed .Stopped)) :
        Except (Capture ExitReason Opcode) Unit) = .error (.Exit e) ∧
      c1_final.position = .error e) ∨
    (∃ op, (Except.error (Capture.Exit (ExitReason.Succeed .Stopped)) :
        Except (Capture ExitReason Opcode) Unit) = .error (.Trap op)) :=
  step_runs_to_exit_or_trap simpleBefore 0 5 c1_machine (SimpleInterpreterHandler.new 0)
    c1_final c1_handler (.error (.Exit (.Succeed .Stopped))) rfl

/-- C2: the dense-switch dispatcher `eval_match` and the function-pointer
table dispatcher `eval_table` produce identical observable behaviour: for
every machine state, start position, host handler and address (and any fuel)
the two loops return the same result — the same final machine (stack,
memory, position, return range), the same handler state and the same
control. -/
theorem c2_dispatchers_equivalent {H : Type} (hb : BeforeBytecode H) (address : Nat)
    (fuel : Nat) (st : Machine) (pc : Nat) (h : H) :
    evalMatchLoop hb address fuel st pc h = evalTableLoop hb address fuel st pc h := by
  induction fuel generalizing st pc h with
  | zero => rfl
  | succ n ih =>
    cases hcode : st.code.get? pc with
    | none => simp only [evalMatchLoop, evalTableLoop, hcode]
    | some b =>
      simp only [evalMatchLoop, evalTableLoop, hcode]
      rcases hhb : hb h (Opcode.mk b.val) pc st address with ⟨h2, r⟩
      cases r with
      | some e => rfl
      | none =>
        rw [table_dispatch_eq b st pc]
        rcases hms : matchStep st b.val pc with ⟨st2, c2⟩
        simp only [hms]
        cases c2 with
        | Continue bytes => exact ih _ _ _
        | Jump pos => exact ih _ _ _
        | Exit e => rfl
        | Trap op => rfl

/-- C6: once the position holds an exit reason, every `step` refuses to
execute: it returns `Capture::Exit` of the same latched reason and leaves
the machine (and the handler) unchanged, so repeated `step` on an exited
machine is idempotent and always yields the identical result. -/
theorem c6_step_exited_idempotent {H : Type} (hb : BeforeBytecode H) (address fuel : Nat)
    (st : Machine) (h : H) (reason : ExitReason) (hpos : st.position = .error reason) :
    Machine.step hb address fuel st h = some (st, h, .error (.Exit reason)) := by
  unfold Machine.step
  rw [hpos]

/-- C6 (witness): the theorem applied to a machine latched on `OutOfGas`. -/
theorem c6_witness :
    Machine.step simpleBefore 0 3 c6_machine (SimpleInterpreterHandler.new 0) =
      some (c6_machine, SimpleInterpreterHandler.new 0, .error (.Exit (.Error .OutOfGas))) :=
  c6_step_exited_idempotent simpleBefore 0 3 c6_machine (SimpleInterpreterHandler.new 0)
    (.Error .OutOfGas) rfl

/-- On an external byte the dense switch takes the default arm: advance the
PC past the opcode and trap, leaving everything else unchanged. -/
theorem matchStep_external (v : Nat) (hv : v < 256) (hext : isExternalByte v = true)
    (st : Machine) (position : Nat) :
    matchStep st v position =
      ({ st with position := .ok (position + 1) }, .Trap (Opcode.mk v)) := by
  interval_cases v <;> first | rfl | exact absurd hext (by decide)

/-- Unfolding `step` on a live machine: it defers to the (table) interpreter
loop started at the current position. -/
theorem Machine.step_ok {H : Type} (hb : BeforeBytecode H) (address fuel : Nat)
    (st : Machine) (h : H) (pc : Nat) (hpos : st.position = .ok pc) :
    Machine.step hb address fuel st h =
      (match evalTableLoop hb address fuel st pc h with
      | none => none
      | some (st', h', .Exit e) => some (st'.exit e, h', .error (.Exit e))
      | some (st', h', .Trap opcode) => some (st', h', .error (.Trap opcode))
      | some (_, _, .Continue _) => none
      | some (_, _, .Jump _) => none) := by
  unfold Machine.step eval
  rw [hpos]

/-- C7: when the byte fetched at `pc` is external (not handled by the core)
and the host's `before_bytecode` allows it, `step` sets the position to
`Ok(pc + 1)` — PC advanced past the opcode byte — and returns
`Capture::Trap` carrying that opcode, leaving stack and memory (and every
other machine field) unchanged. -/
theorem c7_external_byte_traps {H : Type} (hb : BeforeBytecode H) (address fuel : Nat)
    (st : Machine) (h h2 : H) (pc : Nat) (b : Fin 256)
    (hpos : st.position = .ok pc)
    (hcode : st.code.get? pc = some b)
    (hext : isExternalByte b.val = true)
    (hhb : hb h (Opcode.mk b.val) pc st address = (h2, none)) :
    Machine.step hb address (fuel + 1) st h =
      some ({ st with position := .ok (pc + 1) }, h2, .error (.Trap (Opcode.mk b.val))) := by
  have hloop : evalTableLoop hb address (fuel + 1) st pc h =
      some ({ st with position := .ok (pc + 1) }, h2, .Trap (Opcode.mk b.val)) := by
    simp only [evalTableLoop, hcode, hhb]
    rw [table_dispatch_eq b st pc, matchStep_external b.val b.isLt hext st pc]
  rw [Machine.step_ok hb address (fuel + 1) st h pc hpos, hloop]

/-- C7 (witness): the theorem applied to code `[SLOAD]` at pc 0. -/
theorem c7_witness :
    Machine.step simpleBefore 0 3 c7_machine (SimpleInterpreterHandler.new 0) =
      some ({ c7_machine with position := .ok 1 }, c7_handler,
        .error (.Trap (Opcode.mk 0x54))) :=
  c7_external_byte_traps simpleBefore 0 2 c7_machine (SimpleInterpreterHandler.new 0)
    c7_handler 0 (0x54 : Fin 256) rfl rfl (by decide) rfl

/-- C8: when the program counter is at or past the end of code, the fetch
treats it as an implicit `STOP`: the position is latched to
`Succeed(Stopped)` and `step` returns `Capture::Exit(Succeed(Stopped))`,
with stack and memory (and every other machine field) unchanged; the
handler is not consulted. -/
theorem c8_past_end_implicit_stop {H : Type} (hb : BeforeBytecode H) (address fuel : Nat)
    (st : Machine) (h : H) (pc : Nat)
    (hpos : st.position = .ok pc) (hlen : st.code.length ≤ pc) :
    Machine.step hb address (fuel + 1) st h =
      some ({ st with position := .error (.Succeed .Stopped) }, h,
        .error (.Exit (.Succeed .Stopped))) := by
  have hcode : st.code.get? pc = none := List.get?_eq_none.mpr hlen
  have hloop : evalTableLoop hb address (fuel + 1) st pc h =
      some ({ st with position := .error (.Succeed .Stopped) }, h,
        .Exit (.Succeed .Stopped)) := by
    simp only [evalTableLoop, hcode]
  rw [Machine.step_ok hb address (fuel + 1) st h pc hpos, hloop]
  rfl

/-- C8 (witness): the theorem applied to an empty-code machine at pc 0. -/
theorem c8_witness :
    Machine.step simpleBefore 0 4 c8_machine (SimpleInterpreterHandler.new 0) =
      some ({ c8_machine with position := .error (.Succeed .Stopped) },
        SimpleInterpreterHandler.new 0, .error (.Exit (.Succeed .Stopped))) :=
  c8_past_end_implicit_stop simpleBefore 0 3 c8_machine (SimpleInterpreterHandler.new 0)
    0 rfl (by decide)

/-- Reading inside a `Memory.get` slice: byte `i` is the memory byte at
`off + i` (zero-filled past the buffer). -/
theorem Memory.get_getD (m : Memory) (off len i : Nat) (hi : i < len) :
    (m.get off len).getD i 0 = m.data.getD (off + i) 0 := by
  have hl : i < (m.get off len).length := by simpa [Memory.get] using hi
  rw [List.getD_eq_getElem _ _ hl]
  simp [Memory.get]

/-- The length of a `Memory.get` slice is the requested length. -/
theorem Memory.get_length (m : Memory) (off len : Nat) :
    (m.get off len).length = len := by simp [Memory.get]

/-- Any position of a zero-replicate list reads as zero. -/
theorem getD_replicate_zero (n i : Nat) :
    (List.replicate n (0 : Nat)).getD i 0 = 0 := by
  rcases Nat.lt_or_ge i n with h | h
  · rw [List.getD_eq_getElem _ _ (by simpa using h)]
    simp
  · rw [List.getD_eq_default _ _ (by simpa using h)]

/-- C5 (counterexample): `return_value` is not total — when the requested
length `end - start` exceeds `usize::MAX` the `U256::as_usize` conversion
panics (modelled as `none`), here with `return_range = 2^64 .. 2^65`. -/
theorem c5_return_value_not_total : Machine.return_value c5_machine = none := by rfl

/-- C5 (amended): provided the range is well-formed (`start ≤ end`) and the
requested length `end - start` fits in `usize`, `return_value` is defined
and deterministic, with the three-branch behaviour the claim describes: a
buffer of the requested length whose byte `i` is the memory byte at
`start + i` for addressable positions and zero beyond `usize::MAX` (hence
all-zero when `start > usize::MAX`, and the addressable suffix zero-padded
when only `end` exceeds it). -/
theorem c5_return_value_spec (m : Machine)
    (hle : m.return_range.1 ≤ m.return_range.2)
    (hfit : m.return_range.2 - m.return_range.1 ≤ USIZE_MAX) :
    ∃ out, m.return_value = some out ∧
      out.length = m.return_range.2 - m.return_range.1 ∧
      ∀ i, i < m.return_range.2 - m.return_range.1 →
        out.getD i 0 =
          if m.return_range.1 + i < USIZE_MAX then
            m.memory.data.getD (m.return_range.1 + i) 0
          else 0 := by
  rcases hm : m.return_range with ⟨start, stop⟩
  simp only [hm] at hle hfit ⊢
  simp only [Machine.return_value, hm]
  have hcs : checkedSubU stop start = some (stop - start) := by
    simp [checkedSubU, hle]
  have has : asUsize (stop - start) = some (stop - start) := by
    simp [asUsize, hfit]
  by_cases h1 : USIZE_MAX < start
  · rw [if_pos h1]
    simp only [hcs, has, Option.bind_eq_bind, Option.some_bind]
    refine ⟨_, rfl, by simp, ?_⟩
    intro i hi
    rw [if_neg (by omega)]
    exact getD_replicate_zero _ _
  · rw [if_neg h1]
    by_cases h2 : USIZE_MAX < stop
    · rw [if_pos h2]
      simp only [hcs, has, Option.bind_eq_bind, Option.some_bind]
      have hretlen : (m.memory.get start (USIZE_MAX - start)).length = USIZE_MAX - start :=
        Memory.get_length _ _ _
      refine ⟨_, rfl, ?_, ?_⟩
      · simp only [List.length_append, List.length_replicate, hretlen]
        omega
      · intro i hi
        by_cases h3 : i < USIZE_MAX - start
        · rw [List.getD_append _ _ _ _ (by omega)]
          rw [Memory.get_getD _ _ _ _ h3]
          rw [if_pos (by omega)]
        · rw [List.getD_append_right _ _ _ _ (by omega)]
          rw [if_neg (by omega)]
          exact getD_replicate_zero _ _
    · rw [if_neg h2]
      simp only [hcs, has, Option.bind_eq_bind, Option.some_bind]
      refine ⟨_, rfl, Memory.get_length _ _ _, ?_⟩
      intro i hi
      rw [Memory.get_getD _ _ _ _ hi, if_pos (by omega)]

/-- C5 (witness): the amended theorem applied to the concrete machine with
range `0..4` and memory bytes `[1,2,3]`. -/
theorem c5_witness :
    ∃ out, c5_machine_w.return_value = some out ∧
      out.length = c5_machine_w.return_range.2 - c5_machine_w.return_range.1 ∧
      ∀ i, i < c5_machine_w.return_range.2 - c5_machine_w.return_range.1 →
        out.getD i 0 =
          if c5_machine_w.return_range.1 + i < USIZE_MAX then
            c5_machine_w.memory.data.getD (c5_machine_w.return_range.1 + i) 0
          else 0 :=
  c5_return_value_spec c5_machine_w (by decide) (by decide)

/-- Growing memory preserves existing bytes and never shrinks. -/
theorem Memory.grow_preserves (m : Memory) (n : Nat) :
    (∀ i, i < m.data.length → (m.grow n).data.getD i 0 = m.data.getD i 0) ∧
      m.data.length ≤ (m.grow n).data.length := by
  unfold Memory.grow
  split
  · constructor
    · intro i hi
      exact List.getD_append _ _ _ _ hi
    · simp
  · exact ⟨fun i _ => rfl, Nat.le_refl _⟩

/-- A successful `resize_offset` preserves existing bytes and never
shrinks. -/
theorem Memory.resize_offset_preserves (m mem : Memory) (off len : Nat)
    (h : m.resize_offset off len = .ok mem) :
    (∀ i, i < m.data.length → mem.data.getD i 0 = m.data.getD i 0) ∧
      m.data.length ≤ mem.data.length := by
  unfold Memory.resize_offset at h
  split at h
  · cases h
    exact ⟨fun i _ => rfl, Nat.le_refl _⟩
  · split at h
    · cases h
    · split at h
      · cases h
      · cases h
        exact Memory.grow_preserves m _

/-- Bytes of a `setBytes` result: the written window reads from `bytes`,
everything else from the old buffer. -/
theorem Memory.setBytes_getD (m : Memory) (off : Nat) (bytes : List Nat) (j : Nat) :
    (m.setBytes off bytes).data.getD j 0 =
      if off ≤ j ∧ j < off + bytes.length then bytes.getD (j - off) 0
      else m.data.getD j 0 := by
  unfold Memory.setBytes
  by_cases hj : j < max m.data.length (off + bytes.length)
  · rw [List.getD_eq_getElem _ _ (by simpa using hj)]
    simp
  · have hmax := Nat.not_lt.mp hj
    have h1 : off + bytes.length ≤ j := le_trans (Nat.le_max_right _ _) hmax
    have h2 : m.data.length ≤ j := le_trans (Nat.le_max_left _ _) hmax
    rw [List.getD_eq_default _ _ (by simpa using hmax)]
    rw [if_neg (by omega), List.getD_eq_default _ _ h2]

/-- When the destination window is addressable and within the bound,
`copy_large` succeeds and writes exactly the (zero-padded) source bytes. -/
theorem Memory.copy_large_ok (m : Memory) (off dof len : Nat) (src : List Nat)
    (h1 : len ≤ USIZE_MAX) (h2 : off + len ≤ USIZE_MAX)
    (h3 : len = 0 ∨ off + len ≤ m.limit) :
    ∃ mem, m.copy_large off dof len src = .ok mem ∧
      ∀ i, i < len → mem.data.getD (off + i) 0 = src.getD (dof + i) 0 := by
  unfold Memory.copy_large
  by_cases hl : len = 0
  · rw [if_pos hl]
    exact ⟨m, rfl, fun i hi => absurd hi (by omega)⟩
  · rw [if_neg hl]
    have hlim : off + len ≤ m.limit := h3.resolve_left hl
    have hro : m.resize_offset off len = .ok (m.grow (ceil32 (off + len))) := by
      unfold Memory.resize_offset
      rw [if_neg hl, if_neg (by omega), if_neg (by omega)]
    rw [hro]
    refine ⟨_, rfl, ?_⟩
    intro i hi
    rw [Memory.setBytes_getD]
    rw [if_pos (by refine ⟨by omega, ?_⟩; simp; omega)]
    have hoi : off + i - off = i := by omega
    rw [hoi]
    rw [List.getD_eq_getElem _ _ (by simpa using hi)]
    simp

/-- C4 (counterexample): an instruction failing with an error exit can leave
the stack and memory changed: `RETURNDATACOPY` with operands `(0,0,1)` and
an empty buffer exits with `OutOfOffset`, yet its three operands are gone
from the stack and the memory has grown. -/
theorem c4_error_mutates_state :
    (system.returndatacopy (A := Unit) (B := Unit) c4_runtime).2 =
        .Exit (.Error .OutOfOffset) ∧
    (system.returndatacopy (A := Unit) (B := Unit) c4_runtime).1.machine.stack.data ≠
        c4_runtime.machine.stack.data ∧
    (system.returndatacopy (A := Unit) (B := Unit) c4_runtime).1.machine.memory.data ≠
        c4_runtime.machine.memory.data :=
  ⟨rfl, by decide, by decide⟩

/-- C4 (amended): instructions are not fully atomic on failure — a failing
instruction may have consumed its popped operands and grown memory — but
they write no partial results: `RETURNDATACOPY` failing its out-of-offset
check leaves the machine with exactly the three operands popped, the memory
only zero-grown (every previously written byte unchanged), the return-data
buffer untouched, and nothing copied. -/
theorem c4_returndatacopy_failure_effects {A B : Type} (rt : Runtime)
    (mo dof len : Nat) (rest : List Nat) (mem : Memory)
    (hstack : rt.machine.stack.data = mo :: dof :: len :: rest)
    (hresize : rt.machine.memory.resize_offset mo len = .ok mem)
    (hoff : rt.return_data_buffer.length < dof + len) :
    system.returndatacopy (A := A) (B := B) rt =
      ({ rt with machine := { rt.machine with
          stack := ⟨rest, rt.machine.stack.limit⟩, memory := mem } },
        .Exit (.Error .OutOfOffset)) ∧
    (∀ i, i < rt.machine.memory.data.length →
      mem.data.getD i 0 = rt.machine.memory.data.getD i 0) ∧
    rt.machine.memory.data.length ≤ mem.data.length := by
  refine ⟨?_, (Memory.resize_offset_preserves _ _ _ _ hresize).1,
    (Memory.resize_offset_preserves _ _ _ _ hresize).2⟩
  simp only [system.returndatacopy, pop_u256, Stack.pop, memTry, Runtime.withStack,
    Runtime.withMemory, hstack, hresize, gt_iff_lt, hoff, if_true]

/-- C4 (witness): the amended theorem at the concrete runtime of the
counterexample. -/
theorem c4_witness :
    system.returndatacopy (A := Unit) (B := Unit) c4_runtime =
      ({ c4_runtime with machine := { c4_runtime.machine with
          stack := ⟨[], c4_runtime.machine.stack.limit⟩,
          memory := ⟨List.replicate 32 0, 64⟩ } },
        .Exit (.Error .OutOfOffset)) ∧
    (∀ i, i < c4_runtime.machine.memory.data.length →
      (⟨List.replicate 32 0, 64⟩ : Memory).data.getD i 0 =
        c4_runtime.machine.memory.data.getD i 0) ∧
    c4_runtime.machine.memory.data.length ≤
      (⟨List.replicate 32 0, 64⟩ : Memory).data.length :=
  c4_returndatacopy_failure_effects c4_runtime 0 0 1 [] ⟨List.replicate 32 0, 64⟩
    rfl rfl (by decide)

/-- C9: the child context handed to the host is derived from the
`CallScheme` exactly as specified — `Call`/`StaticCall` give
`{address: to, caller: self, apparent_value: value-or-zero}`, `CallCode`
gives `{address: self, caller: self, apparent_value: value}`,
`DelegateCall` forwards `{address: self, caller: self.caller,
apparent_value: self.apparent_value}` — and a transfer is attached only for
`Call` (source self, target to) and `CallCode` (source = target = self). -/
theorem c9_call_context_derivation (rt rt1 : Runtime)
    (scheme : CallScheme) (sc : CallScratch)
    (gas toWord value in_offset in_len out_offset out_len : Nat) (rest : List Nat)
    (hstack : rt.machine.stack.data =
      gas :: toWord :: (schemeOperand scheme value ++
        in_offset :: in_len :: out_offset :: out_len :: rest))
    (hpre : system.callScratch rt scheme = .ok (rt1, sc)) :
    sc.args.context = (match scheme with
      | .Call => ⟨toH160 toWord, rt.context.address, value⟩
      | .StaticCall => ⟨toH160 toWord, rt.context.address, 0⟩
      | .CallCode => ⟨rt.context.address, rt.context.address, value⟩
      | .DelegateCall => ⟨rt.context.address, rt.context.caller, rt.context.apparent_value⟩) ∧
    sc.args.transfer = (match scheme with
      | .Call => some ⟨rt.context.address, toH160 toWord, value⟩
      | .CallCode => some ⟨rt.context.address, rt.context.address, value⟩
      | .DelegateCall => none
      | .StaticCall => none) := by
  have memTry_fields : ∀ (r r' : Runtime) (x : Except ExitReason Memory),
      memTry r x = .ok r' → r'.context = r.context := by
    intro r r' x h
    unfold memTry at h
    split at h
    · cases h
      rfl
    · exact Except.noConfusion h
  cases scheme <;>
    (simp only [system.callScratch, pop_u256, pop_h256, Stack.pop, Runtime.withStack,
       schemeOperand, List.cons_append, List.nil_append, hstack] at hpre
     split at hpre
     · exact Except.noConfusion hpre
     · split at hpre
       · exact Except.noConfusion hpre
       · split at hpre
         · exact Except.noConfusion hpre
         · rename_i xA rtA hA xB rtB hB xI inp hinp
           injection hpre with h1
           injection h1 with hrt hsc
           subst hrt
           subst hsc
           have hA1 := memTry_fields _ _ _ hA
           have hB1 := memTry_fields _ _ _ hB
           exact ⟨by simp only [hB1, hA1]; try rfl, by simp only [hB1, hA1]; try rfl⟩)

/-- C9 (witness): the theorem applied to the concrete `CALL`. -/
theorem c9_witness :
    c9_sc.args.context = ⟨toH160 5, c9_rt.context.address, 7⟩ ∧
    c9_sc.args.transfer = some ⟨c9_rt.context.address, toH160 5, 7⟩ :=
  c9_call_context_derivation c9_rt c9_rt1 .Call c9_sc 9 5 7 0 0 0 0 [] rfl rfl

/-- C10: whenever the host's call or create capability returns
`Capture::Trap(interrupt)`, the runtime dispatcher pushes one all-zero
32-byte word onto the stack and then surfaces the
`CallInterrupt`/`CreateInterrupt`, so the suspended machine's stack is one
word deeper than immediately after the operands were popped. -/
theorem c10_trap_pushes_zero {A B : Type}
    (rtc rtc1 : Runtime) (scheme : CallScheme) (sc : CallScratch)
    (hcall : CallArgs → Capture (ExitReason × List Nat) A) (i : A)
    (hpreC : system.callScratch rtc scheme = .ok (rtc1, sc))
    (hresC : hcall sc.args = .Trap i)
    (hcapC : rtc1.machine.stack.data.length ≠ rtc1.machine.stack.limit)
    (rtk rtk1 : Runtime) (is2 : Bool) (kec : List Nat → Nat) (args : CreateArgs)
    (hcreate : CreateArgs → Capture (ExitReason × Option Nat × List Nat) B) (j : B)
    (hpreK : system.createScratch rtk is2 kec = .ok (rtk1, args))
    (hresK : hcreate args = .Trap j)
    (hcapK : rtk1.machine.stack.data.length ≠ rtk1.machine.stack.limit) :
    (system.call (A := A) (B := B) rtc scheme hcall =
      (pushWord rtc1 0, .CallInterrupt i)) ∧
    (pushWord rtc1 0).machine.stack.data.length = rtc1.machine.stack.data.length + 1 ∧
    (system.create (A := A) (B := B) rtk is2 kec hcreate =
      (pushWord rtk1 0, .CreateInterrupt j)) ∧
    (pushWord rtk1 0).machine.stack.data.length = rtk1.machine.stack.data.length + 1 := by
  refine ⟨?_, rfl, ?_, rfl⟩
  · simp only [system.call, hpreC, system.callFinish, hresC, push_h256, push_u256,
      Stack.push, Runtime.withStack, pushWord, hcapC, if_false, ite_false]
  · simp only [system.create, hpreK, hresK, push_h256, push_u256,
      Stack.push, Runtime.withStack, pushWord, hcapK, if_false, ite_false]

/-- C10 (witness): the theorem applied to a concrete trapped `CALL` and a
concrete trapped `CREATE`. -/
theorem c10_witness :
    (system.call (A := Unit) (B := Unit) c10_crt .Call (fun _ => .Trap ()) =
      (pushWord c10_crt1 0, .CallInterrupt ())) ∧
    (pushWord c10_crt1 0).machine.stack.data.length =
      c10_crt1.machine.stack.data.length + 1 ∧
    (system.create (A := Unit) (B := Unit) c10_krt false (fun _ => 0) (fun _ => .Trap ()) =
      (pushWord c10_krt1 0, .CreateInterrupt ())) ∧
    (pushWord c10_krt1 0).machine.stack.data.length =
      c10_krt1.machine.stack.data.length + 1 :=
  c10_trap_pushes_zero c10_crt c10_crt1 .Call c10_csc (fun _ => .Trap ()) ()
    rfl rfl (by decide) c10_krt c10_krt1 false (fun _ => 0) c10_kargs (fun _ => .Trap ()) ()
    rfl rfl (by decide)

/-- C3: when a CALL-family opcode's host call returns `Capture::Exit`, the
runtime sets `return_data_buffer` to the child's return data in all four
cases, and then: on child success it copies `min(out_len,
len(return_data))` bytes of the return data into memory at `out_offset` and
pushes 1; on child revert it pushes 0 and still copies the return data; on
child error it pushes 0 and does not copy; on fatal it pushes 0 and
propagates the fatal exit. The hypotheses state that the operand phase
reached the host call, that the stack has room for the result word, and
that the (already resized) output window is addressable and within the
memory bound. -/
theorem c3_call_child_result {A B : Type} (rt rt1 : Runtime) (scheme : CallScheme)
    (sc : CallScratch) (hcall : CallArgs → Capture (ExitReason × List Nat) A)
    (reason : ExitReason) (rdata : List Nat)
    (hpre : system.callScratch rt scheme = .ok (rt1, sc))
    (hres : hcall sc.args = .Exit (reason, rdata))
    (hcap : rt1.machine.stack.data.length ≠ rt1.machine.stack.limit)
    (hout1 : sc.out_len ≤ USIZE_MAX) (hout2 : sc.out_offset + sc.out_len ≤ USIZE_MAX)
    (hout3 : sc.out_len = 0 ∨ sc.out_offset + sc.out_len ≤ rt1.machine.memory.limit) :
    (system.call (A := A) (B := B) rt scheme hcall).1.return_data_buffer = rdata ∧
    (∀ s, reason = .Succeed s →
      ∃ mem, rt1.machine.memory.copy_large sc.out_offset 0 (min sc.out_len rdata.length)
          rdata = .ok mem ∧
        system.call (A := A) (B := B) rt scheme hcall =
          (pushWord (Runtime.withMemory { rt1 with return_data_buffer := rdata } mem) 1,
            .Continue) ∧
        ∀ i, i < min sc.out_len rdata.length →
          mem.data.getD (sc.out_offset + i) 0 = rdata.getD i 0) ∧
    (∀ rv, reason = .Revert rv →
      ∃ mem, rt1.machine.memory.copy_large sc.out_offset 0 (min sc.out_len rdata.length)
          rdata = .ok mem ∧
        system.call (A := A) (B := B) rt scheme hcall =
          (Runtime.withMemory (pushWord { rt1 with return_data_buffer := rdata } 0) mem,
            .Continue) ∧
        ∀ i, i < min sc.out_len rdata.length →
          mem.data.getD (sc.out_offset + i) 0 = rdata.getD i 0) ∧
    (∀ e, reason = .Error e →
      system.call (A := A) (B := B) rt scheme hcall =
        (pushWord { rt1 with return_data_buffer := rdata } 0, .Continue)) ∧
    (∀ f, reason = .Fatal f →
      system.call (A := A) (B := B) rt scheme hcall =
        (pushWord { rt1 with return_data_buffer := rdata } 0, .Exit (.Fatal f))) := by
  have hcall_eq : system.call (A := A) (B := B) rt scheme hcall =
      system.callFinish rt1 sc (.Exit (reason, rdata)) := by
    simp only [system.call, hpre, hres]
  obtain ⟨mem, hmem, hbytes⟩ := Memory.copy_large_ok rt1.machine.memory sc.out_offset 0
    (min sc.out_len rdata.length) rdata
    (le_trans (Nat.min_le_left _ _) hout1)
    (by have := Nat.min_le_left sc.out_len rdata.length; omega)
    (by rcases hout3 with h | h
        · left
          simp [h]
        · right
          have := Nat.min_le_left sc.out_len rdata.length
          omega)
  have hbytes' : ∀ i, i < min sc.out_len rdata.length →
      mem.data.getD (sc.out_offset + i) 0 = rdata.getD i 0 := by
    intro i hi
    have := hbytes i hi
    simpa using this
  refine ⟨?_, ?_, ?_, ?_, ?_⟩
  · rw [hcall_eq]
    cases reason with
    | Succeed s =>
      simp only [system.callFinish, hmem, push_u256, Stack.push, Runtime.withMemory,
        Runtime.withStack, hcap, if_false, ite_false]
    | Error e =>
      simp only [system.callFinish, push_u256, Stack.push, Runtime.withMemory,
        Runtime.withStack, hcap, if_false, ite_false]
    | Revert rv =>
      simp only [system.callFinish, hmem, push_u256, Stack.push, Runtime.withMemory,
        Runtime.withStack, hcap, if_false, ite_false]
    | Fatal f =>
      simp only [system.callFinish, push_u256, Stack.push, Runtime.withMemory,
        Runtime.withStack, hcap, if_false, ite_false]
  · intro s hs
    subst hs
    refine ⟨mem, hmem, ?_, hbytes'⟩
    rw [hcall_eq]
    simp only [system.callFinish, hmem, push_u256, Stack.push, Runtime.withMemory,
      Runtime.withStack, pushWord, hcap, if_false, ite_false]
  · intro rv hrv
    subst hrv
    refine ⟨mem, hmem, ?_, hbytes'⟩
    rw [hcall_eq]
    simp only [system.callFinish, hmem, push_u256, Stack.push, Runtime.withMemory,
      Runtime.withStack, pushWord, hcap, if_false, ite_false]
  · intro e he
    subst he
    rw [hcall_eq]
    simp only [system.callFinish, push_u256, Stack.push, Runtime.withMemory,
      Runtime.withStack, pushWord, hcap, if_false, ite_false]
  · intro f hf
    subst hf
    rw [hcall_eq]
    simp only [system.callFinish, push_u256, Stack.push, Runtime.withMemory,
      Runtime.withStack, pushWord, hcap, if_false, ite_false]

/-- C3 (witness): the theorem applied to the concrete successful `CALL`. -/
theorem c3_witness :
    (system.call (A := Unit) (B := Unit) c3_rt .Call c3_host).1.return_data_buffer =
      [170, 187] ∧
    (∀ s, ExitReason.Succeed .Stopped = .Succeed s →
      ∃ mem, c3_rt1.machine.memory.copy_large c3_sc.out_offset 0
          (min c3_sc.out_len [170, 187].length) [170, 187] = .ok mem ∧
        system.call (A := Unit) (B := Unit) c3_rt .Call c3_host =
          (pushWord (Runtime.withMemory { c3_rt1 with return_data_buffer := [170, 187] }
            mem) 1, .Continue) ∧
        ∀ i, i < min c3_sc.out_len [170, 187].length →
          mem.data.getD (c3_sc.out_offset + i) 0 = [170, 187].getD i 0) ∧
    (∀ rv, ExitReason.Succeed .Stopped = .Revert rv →
      ∃ mem, c3_rt1.machine.memory.copy_large c3_sc.out_offset 0
          (min c3_sc.out_len [170, 187].length) [170, 187] = .ok mem ∧
        system.call (A := Unit) (B := Unit) c3_rt .Call c3_host =
          (Runtime.withMemory (pushWord { c3_rt1 with return_data_buffer := [170, 187] } 0)
            mem, .Continue) ∧
        ∀ i, i < min c3_sc.out_len [170, 187].length →
          mem.data.getD (c3_sc.out_offset + i) 0 = [170, 187].getD i 0) ∧
    (∀ e, ExitReason.Succeed .Stopped = .Error e →
      system.call (A := Unit) (B := Unit) c3_rt .Call c3_host =
        (pushWord { c3_rt1 with return_data_buffer := [170, 187] } 0, .Continue)) ∧
    (∀ f, ExitReason.Succeed .Stopped = .Fatal f →
      system.call (A := Unit) (B := Unit) c3_rt .Call c3_host =
        (pushWord { c3_rt1 with return_data_buffer := [170, 187] } 0, .Exit (.Fatal f))) :=
  c3_call_child_result c3_rt c3_rt1 .Call c3_sc c3_host (.Succeed .Stopped) [170, 187]
    rfl rfl (by decide) (by decide) (by decide) (Or.inl rfl)
